import Mathlib

set_option maxRecDepth 100000

/-!
Verification development for the NABU keyboard → USB HID adapter
(`src/nabu_usb_keyboard.c`).

The embedding is shallow: the C translation table, the queue, the
report-engine step of `hid_task`, the error task, the liveness
watchdog and the Core-1 reader loop are translated into executable
Lean definitions.  Machine integers are modelled as `Nat`; the only
place where 32-bit wraparound matters (timestamp differences) uses an
explicit modulus.  The three cross-core byte queues are modelled as
FIFO lists inside the system state; the circular-buffer realisation
of `struct queue` is modelled and verified separately (`queue_add`).
Timestamps returned by `board_millis` are passed in as explicit
parameters; `sleep_ms(4000)` inside `kbd_reboot` is modelled by the
`now2` parameter, which stands for the value `board_millis()` returns
after the settle delay.  `printf`/`debug_printf` are elided.  USB
transport calls (`tud_hid_n_report`, `tud_remote_wakeup`) become
explicit outputs of the step function.
-/

/-! USB HID usage-ID and modifier constants, as defined by the USB HID
usage tables and TinyUSB's `hid.h` (external to this repository). -/

def HID_KEY_NONE : Nat := 0x00
def HID_KEY_A : Nat := 0x04
def HID_KEY_B : Nat := 0x05
def HID_KEY_C : Nat := 0x06
def HID_KEY_D : Nat := 0x07
def HID_KEY_E : Nat := 0x08
def HID_KEY_F : Nat := 0x09
def HID_KEY_G : Nat := 0x0a
def HID_KEY_H : Nat := 0x0b
def HID_KEY_I : Nat := 0x0c
def HID_KEY_J : Nat := 0x0d
def HID_KEY_K : Nat := 0x0e
def HID_KEY_L : Nat := 0x0f
def HID_KEY_M : Nat := 0x10
def HID_KEY_N : Nat := 0x11
def HID_KEY_O : Nat := 0x12
def HID_KEY_P : Nat := 0x13
def HID_KEY_Q : Nat := 0x14
def HID_KEY_R : Nat := 0x15
def HID_KEY_S : Nat := 0x16
def HID_KEY_T : Nat := 0x17
def HID_KEY_U : Nat := 0x18
def HID_KEY_V : Nat := 0x19
def HID_KEY_W : Nat := 0x1a
def HID_KEY_X : Nat := 0x1b
def HID_KEY_Y : Nat := 0x1c
def HID_KEY_Z : Nat := 0x1d
def HID_KEY_1 : Nat := 0x1e
def HID_KEY_2 : Nat := 0x1f
def HID_KEY_3 : Nat := 0x20
def HID_KEY_4 : Nat := 0x21
def HID_KEY_5 : Nat := 0x22
def HID_KEY_6 : Nat := 0x23
def HID_KEY_7 : Nat := 0x24
def HID_KEY_8 : Nat := 0x25
def HID_KEY_9 : Nat := 0x26
def HID_KEY_0 : Nat := 0x27
def HID_KEY_ENTER : Nat := 0x28
def HID_KEY_ESCAPE : Nat := 0x29
def HID_KEY_BACKSPACE : Nat := 0x2a
def HID_KEY_TAB : Nat := 0x2b
def HID_KEY_SPACE : Nat := 0x2c
def HID_KEY_MINUS : Nat := 0x2d
def HID_KEY_EQUAL : Nat := 0x2e
def HID_KEY_BRACKET_LEFT : Nat := 0x2f
def HID_KEY_BRACKET_RIGHT : Nat := 0x30
def HID_KEY_BACKSLASH : Nat := 0x31
def HID_KEY_SEMICOLON : Nat := 0x33
def HID_KEY_APOSTROPHE : Nat := 0x34
def HID_KEY_COMMA : Nat := 0x36
def HID_KEY_PERIOD : Nat := 0x37
def HID_KEY_SLASH : Nat := 0x38
def HID_KEY_PAUSE : Nat := 0x48
def HID_KEY_PAGE_UP : Nat := 0x4b
def HID_KEY_PAGE_DOWN : Nat := 0x4e
def HID_KEY_ARROW_RIGHT : Nat := 0x4f
def HID_KEY_ARROW_LEFT : Nat := 0x50
def HID_KEY_ARROW_DOWN : Nat := 0x51
def HID_KEY_ARROW_UP : Nat := 0x52

def GAMEPAD_HAT_CENTERED : Nat := 0
def GAMEPAD_HAT_UP : Nat := 1
def GAMEPAD_HAT_UP_RIGHT : Nat := 2
def GAMEPAD_HAT_RIGHT : Nat := 3
def GAMEPAD_HAT_DOWN_RIGHT : Nat := 4
def GAMEPAD_HAT_DOWN : Nat := 5
def GAMEPAD_HAT_DOWN_LEFT : Nat := 6
def GAMEPAD_HAT_UP_LEFT : Nat := 8
def GAMEPAD_BUTTON_A : Nat := 1

/-- GAMEPAD_HAT_LEFT from TinyUSB's hid.h. -/
def GAMEPAD_HAT_LEFT : Nat := 7

/-! Modifier / flag bits OR-ed into the 16-bit codes of the translation
table, from `nabu_usb_keyboard.c` lines 313-322. -/

def M_CTRL : Nat := 0x0100
def M_SHIFT : Nat := 0x0200
def M_ALT : Nat := 0x0400
def M_META : Nat := 0x0800
def M_DOWN : Nat := 0x1000
def M_UP : Nat := 0x2000
def M_ENDSEQ : Nat := 0x4000

def M_HIDKEY (m : Nat) : Nat := m &&& 0x00ff
def M_MODS (m : Nat) : Nat := m &&& 0x0f00

def NABU_CODE_JOY0 : Nat := 0x80
def NABU_CODE_JOY1 : Nat := 0x81
def NABU_CODE_ERR_FIRST : Nat := 0x90
def NABU_CODE_ERR_LAST : Nat := 0x95
def NABU_CODE_JOYDAT_FIRST : Nat := 0xa0
def NABU_CODE_JOYDAT_LAST : Nat := 0xbf

def NABU_CODE_JOYDAT_P (c : Nat) : Bool :=
  NABU_CODE_JOYDAT_FIRST ≤ c && c ≤ NABU_CODE_JOYDAT_LAST

def NABU_CODE_ERR_P (c : Nat) : Bool :=
  NABU_CODE_ERR_FIRST ≤ c && c ≤ NABU_CODE_ERR_LAST

def NABU_CODE_ERR_MKEY : Nat := 0x90
def NABU_CODE_ERR_RAM : Nat := 0x91
def NABU_CODE_ERR_ROM : Nat := 0x92
def NABU_CODE_ERR_ISR : Nat := 0x93
def NABU_CODE_ERR_PING : Nat := 0x94
def NABU_CODE_ERR_RESET : Nat := 0x95

/-- Pad an initializer list to the six 16-bit slots of `struct codeseq`
(unlisted slots are zero-initialised in C). -/
def codeseq (l : List Nat) : List Nat :=
  l ++ List.replicate (6 - l.length) 0

/-- The 256-entry translation table `nabu_to_hid` from
`nabu_usb_keyboard.c` lines 350-679, as the positional array the C
designated initializers build: entry `c` sits at index `c`, and
absent entries are the all-zero `codes` array. -/
def nabu_to_hid_table : List (List Nat) := [
  /- 0x00 -/ codeseq [M_CTRL, M_CTRL ||| M_SHIFT, M_CTRL ||| M_SHIFT ||| HID_KEY_2, M_CTRL ||| M_SHIFT, M_CTRL],
  /- 0x01 -/ codeseq [M_CTRL, M_CTRL ||| HID_KEY_A, M_CTRL],
  /- 0x02 -/ codeseq [M_CTRL, M_CTRL ||| HID_KEY_B, M_CTRL],
  /- 0x03 -/ codeseq [M_CTRL, M_CTRL ||| HID_KEY_C, M_CTRL],
  /- 0x04 -/ codeseq [M_CTRL, M_CTRL ||| HID_KEY_D, M_CTRL],
  /- 0x05 -/ codeseq [M_CTRL, M_CTRL ||| HID_KEY_E, M_CTRL],
  /- 0x06 -/ codeseq [M_CTRL, M_CTRL ||| HID_KEY_F, M_CTRL],
  /- 0x07 -/ codeseq [M_CTRL, M_CTRL ||| HID_KEY_G, M_CTRL],
  /- 0x08 -/ codeseq [HID_KEY_BACKSPACE],
  /- 0x09 -/ codeseq [HID_KEY_TAB],
  /- 0x0a -/ codeseq [HID_KEY_ENTER],
  /- 0x0b -/ codeseq [M_CTRL, M_CTRL ||| HID_KEY_K, M_CTRL],
  /- 0x0c -/ codeseq [M_CTRL, M_CTRL ||| HID_KEY_L, M_CTRL],
  /- 0x0d -/ codeseq [HID_KEY_ENTER],
  /- 0x0e -/ codeseq [M_CTRL, M_CTRL ||| HID_KEY_N, M_CTRL],
  /- 0x0f -/ codeseq [M_CTRL, M_CTRL ||| HID_KEY_O, M_CTRL],
  /- 0x10 -/ codeseq [M_CTRL, M_CTRL ||| HID_KEY_P, M_CTRL],
  /- 0x11 -/ codeseq [M_CTRL, M_CTRL ||| HID_KEY_Q, M_CTRL],
  /- 0x12 -/ codeseq [M_CTRL, M_CTRL ||| HID_KEY_R, M_CTRL],
  /- 0x13 -/ codeseq [M_CTRL, M_CTRL ||| HID_KEY_S, M_CTRL],
  /- 0x14 -/ codeseq [M_CTRL, M_CTRL ||| HID_KEY_T, M_CTRL],
  /- 0x15 -/ codeseq [M_CTRL, M_CTRL ||| HID_KEY_U, M_CTRL],
  /- 0x16 -/ codeseq [M_CTRL, M_CTRL ||| HID_KEY_V, M_CTRL],
  /- 0x17 -/ codeseq [M_CTRL, M_CTRL ||| HID_KEY_W, M_CTRL],
  /- 0x18 -/ codeseq [M_CTRL, M_CTRL ||| HID_KEY_X, M_CTRL],
  /- 0x19 -/ codeseq [M_CTRL, M_CTRL ||| HID_KEY_Y, M_CTRL],
  /- 0x1a -/ codeseq [M_CTRL, M_CTRL ||| HID_KEY_Z, M_CTRL],
  /- 0x1b -/ codeseq [HID_KEY_ESCAPE],
  /- 0x1c -/ codeseq [M_CTRL, M_CTRL ||| M_SHIFT, M_CTRL ||| M_SHIFT ||| HID_KEY_COMMA, M_CTRL ||| M_SHIFT, M_CTRL],
  /- 0x1d -/ codeseq [M_CTRL, M_CTRL ||| HID_KEY_BRACKET_RIGHT, M_CTRL],
  /- 0x1e -/ codeseq [M_CTRL, M_CTRL ||| M_SHIFT, M_CTRL ||| M_SHIFT ||| HID_KEY_6, M_CTRL ||| M_SHIFT, M_CTRL],
  /- 0x1f -/ codeseq [M_CTRL, M_CTRL ||| M_SHIFT, M_CTRL ||| M_SHIFT ||| HID_KEY_MINUS, M_CTRL ||| M_SHIFT, M_CTRL],
  /- 0x20 -/ codeseq [HID_KEY_SPACE],
  /- 0x21 -/ codeseq [M_SHIFT, M_SHIFT ||| HID_KEY_1, M_SHIFT],
  /- 0x22 -/ codeseq [M_SHIFT, M_SHIFT ||| HID_KEY_APOSTROPHE, M_SHIFT],
  /- 0x23 -/ codeseq [M_SHIFT, M_SHIFT ||| HID_KEY_3, M_SHIFT],
  /- 0x24 -/ codeseq [M_SHIFT, M_SHIFT ||| HID_KEY_4, M_SHIFT],
  /- 0x25 -/ codeseq [M_SHIFT, M_SHIFT ||| HID_KEY_5, M_SHIFT],
  /- 0x26 -/ codeseq [M_SHIFT, M_SHIFT ||| HID_KEY_7, M_SHIFT],
  /- 0x27 -/ codeseq [HID_KEY_APOSTROPHE],
  /- 0x28 -/ codeseq [M_SHIFT, M_SHIFT ||| HID_KEY_9, M_SHIFT],
  /- 0x29 -/ codeseq [M_SHIFT, M_SHIFT ||| HID_KEY_0, M_SHIFT],
  /- 0x2a -/ codeseq [M_SHIFT, M_SHIFT ||| HID_KEY_8, M_SHIFT],
  /- 0x2b -/ codeseq [M_SHIFT, M_SHIFT ||| HID_KEY_EQUAL, M_SHIFT],
  /- 0x2c -/ codeseq [HID_KEY_COMMA],
  /- 0x2d -/ codeseq [HID_KEY_MINUS],
  /- 0x2e -/ codeseq [HID_KEY_PERIOD],
  /- 0x2f -/ codeseq [HID_KEY_SLASH],
  /- 0x30 -/ codeseq [HID_KEY_0],
  /- 0x31 -/ codeseq [HID_KEY_1],
  /- 0x32 -/ codeseq [HID_KEY_2],
  /- 0x33 -/ codeseq [HID_KEY_3],
  /- 0x34 -/ codeseq [HID_KEY_4],
  /- 0x35 -/ codeseq [HID_KEY_5],
  /- 0x36 -/ codeseq [HID_KEY_6],
  /- 0x37 -/ codeseq [HID_KEY_7],
  /- 0x38 -/ codeseq [HID_KEY_8],
  /- 0x39 -/ codeseq [HID_KEY_9],
  /- 0x3a -/ codeseq [M_SHIFT, M_SHIFT ||| HID_KEY_SEMICOLON, M_SHIFT],
  /- 0x3b -/ codeseq [HID_KEY_SEMICOLON],
  /- 0x3c -/ codeseq [M_SHIFT, M_SHIFT ||| HID_KEY_COMMA, M_SHIFT],
  /- 0x3d -/ codeseq [HID_KEY_EQUAL],
  /- 0x3e -/ codeseq [M_SHIFT, M_SHIFT ||| HID_KEY_PERIOD, M_SHIFT],
  /- 0x3f -/ codeseq [M_SHIFT, M_SHIFT ||| HID_KEY_SLASH, M_SHIFT],
  /- 0x40 -/ codeseq [M_SHIFT, M_SHIFT ||| HID_KEY_2, M_SHIFT],
  /- 0x41 -/ codeseq [M_SHIFT, M_SHIFT ||| HID_KEY_A, M_SHIFT],
  /- 0x42 -/ codeseq [M_SHIFT, M_SHIFT ||| HID_KEY_B, M_SHIFT],
  /- 0x43 -/ codeseq [M_SHIFT, M_SHIFT ||| HID_KEY_C, M_SHIFT],
  /- 0x44 -/ codeseq [M_SHIFT, M_SHIFT ||| HID_KEY_D, M_SHIFT],
  /- 0x45 -/ codeseq [M_SHIFT, M_SHIFT ||| HID_KEY_E, M_SHIFT],
  /- 0x46 -/ codeseq [M_SHIFT, M_SHIFT ||| HID_KEY_F, M_SHIFT],
  /- 0x47 -/ codeseq [M_SHIFT, M_SHIFT ||| HID_KEY_G, M_SHIFT],
  /- 0x48 -/ codeseq [M_SHIFT, M_SHIFT ||| HID_KEY_H, M_SHIFT],
  /- 0x49 -/ codeseq [M_SHIFT, M_SHIFT ||| HID_KEY_I, M_SHIFT],
  /- 0x4a -/ codeseq [M_SHIFT, M_SHIFT ||| HID_KEY_J, M_SHIFT],
  /- 0x4b -/ codeseq [M_SHIFT, M_SHIFT ||| HID_KEY_K, M_SHIFT],
  /- 0x4c -/ codeseq [M_SHIFT, M_SHIFT ||| HID_KEY_L, M_SHIFT],
  /- 0x4d -/ codeseq [M_SHIFT, M_SHIFT ||| HID_KEY_M, M_SHIFT],
  /- 0x4e -/ codeseq [M_SHIFT, M_SHIFT ||| HID_KEY_N, M_SHIFT],
  /- 0x4f -/ codeseq [M_SHIFT, M_SHIFT ||| HID_KEY_O, M_SHIFT],
  /- 0x50 -/ codeseq [M_SHIFT, M_SHIFT ||| HID_KEY_P, M_SHIFT],
  /- 0x51 -/ codeseq [M_SHIFT, M_SHIFT ||| HID_KEY_Q, M_SHIFT],
  /- 0x52 -/ codeseq [M_SHIFT, M_SHIFT ||| HID_KEY_R, M_SHIFT],
  /- 0x53 -/ codeseq [M_SHIFT, M_SHIFT ||| HID_KEY_S, M_SHIFT],
  /- 0x54 -/ codeseq [M_SHIFT, M_SHIFT ||| HID_KEY_T, M_SHIFT],
  /- 0x55 -/ codeseq [M_SHIFT, M_SHIFT ||| HID_KEY_U, M_SHIFT],
  /- 0x56 -/ codeseq [M_SHIFT, M_SHIFT ||| HID_KEY_V, M_SHIFT],
  /- 0x57 -/ codeseq [M_SHIFT, M_SHIFT ||| HID_KEY_W, M_SHIFT],
  /- 0x58 -/ codeseq [M_SHIFT, M_SHIFT ||| HID_KEY_X, M_SHIFT],
  /- 0x59 -/ codeseq [M_SHIFT, M_SHIFT ||| HID_KEY_Y, M_SHIFT],
  /- 0x5a -/ codeseq [M_SHIFT, M_SHIFT ||| HID_KEY_Z, M_SHIFT],
  /- 0x5b -/ codeseq [HID_KEY_BRACKET_LEFT],
  /- 0x5c -/ codeseq [],
  /- 0x5d -/ codeseq [HID_KEY_BRACKET_RIGHT],
  /- 0x5e -/ codeseq [M_SHIFT, M_SHIFT ||| HID_KEY_6, M_SHIFT],
  /- 0x5f -/ codeseq [M_SHIFT, M_SHIFT ||| HID_KEY_MINUS, M_SHIFT],
  /- 0x60 -/ codeseq [],
  /- 0x61 -/ codeseq [HID_KEY_A],
  /- 0x62 -/ codeseq [HID_KEY_B],
  /- 0x63 -/ codeseq [HID_KEY_C],
  /- 0x64 -/ codeseq [HID_KEY_D],
  /- 0x65 -/ codeseq [HID_KEY_E],
  /- 0x66 -/ codeseq [HID_KEY_F],
  /- 0x67 -/ codeseq [HID_KEY_G],
  /- 0x68 -/ codeseq [HID_KEY_H],
  /- 0x69 -/ codeseq [HID_KEY_I],
  /- 0x6a -/ codeseq [HID_KEY_J],
  /- 0x6b -/ codeseq [HID_KEY_K],
  /- 0x6c -/ codeseq [HID_KEY_L],
  /- 0x6d -/ codeseq [HID_KEY_M],
  /- 0x6e -/ codeseq [HID_KEY_N],
  /- 0x6f -/ codeseq [HID_KEY_O],
  /- 0x70 -/ codeseq [HID_KEY_P],
  /- 0x71 -/ codeseq [HID_KEY_Q],
  /- 0x72 -/ codeseq [HID_KEY_R],
  /- 0x73 -/ codeseq [HID_KEY_S],
  /- 0x74 -/ codeseq [HID_KEY_T],
  /- 0x75 -/ codeseq [HID_KEY_U],
  /- 0x76 -/ codeseq [HID_KEY_V],
  /- 0x77 -/ codeseq [HID_KEY_W],
  /- 0x78 -/ codeseq [HID_KEY_X],
  /- 0x79 -/ codeseq [HID_KEY_Y],
  /- 0x7a -/ codeseq [HID_KEY_Z],
  /- 0x7b -/ codeseq [M_SHIFT, M_SHIFT ||| HID_KEY_BRACKET_LEFT, M_SHIFT],
  /- 0x7c -/ codeseq [],
  /- 0x7d -/ codeseq [M_SHIFT, M_SHIFT ||| HID_KEY_BRACKET_RIGHT, M_SHIFT],
  /- 0x7e -/ codeseq [],
  /- 0x7f -/ codeseq [HID_KEY_BACKSPACE],
  /- 0x80 -/ codeseq [],
  /- 0x81 -/ codeseq [],
  /- 0x82 -/ codeseq [],
  /- 0x83 -/ codeseq [],
  /- 0x84 -/ codeseq [],
  /- 0x85 -/ codeseq [],
  /- 0x86 -/ codeseq [],
  /- 0x87 -/ codeseq [],
  /- 0x88 -/ codeseq [],
  /- 0x89 -/ codeseq [],
  /- 0x8a -/ codeseq [],
  /- 0x8b -/ codeseq [],
  /- 0x8c -/ codeseq [],
  /- 0x8d -/ codeseq [],
  /- 0x8e -/ codeseq [],
  /- 0x8f -/ codeseq [],
  /- 0x90 -/ codeseq [],
  /- 0x91 -/ codeseq [],
  /- 0x92 -/ codeseq [],
  /- 0x93 -/ codeseq [],
  /- 0x94 -/ codeseq [],
  /- 0x95 -/ codeseq [],
  /- 0x96 -/ codeseq [],
  /- 0x97 -/ codeseq [],
  /- 0x98 -/ codeseq [],
  /- 0x99 -/ codeseq [],
  /- 0x9a -/ codeseq [],
  /- 0x9b -/ codeseq [],
  /- 0x9c -/ codeseq [],
  /- 0x9d -/ codeseq [],
  /- 0x9e -/ codeseq [],
  /- 0x9f -/ codeseq [],
  /- 0xa0 -/ codeseq [],
  /- 0xa1 -/ codeseq [],
  /- 0xa2 -/ codeseq [],
  /- 0xa3 -/ codeseq [],
  /- 0xa4 -/ codeseq [],
  /- 0xa5 -/ codeseq [],
  /- 0xa6 -/ codeseq [],
  /- 0xa7 -/ codeseq [],
  /- 0xa8 -/ codeseq [],
  /- 0xa9 -/ codeseq [],
  /- 0xaa -/ codeseq [],
  /- 0xab -/ codeseq [],
  /- 0xac -/ codeseq [],
  /- 0xad -/ codeseq [],
  /- 0xae -/ codeseq [],
  /- 0xaf -/ codeseq [],
  /- 0xb0 -/ codeseq [],
  /- 0xb1 -/ codeseq [],
  /- 0xb2 -/ codeseq [],
  /- 0xb3 -/ codeseq [],
  /- 0xb4 -/ codeseq [],
  /- 0xb5 -/ codeseq [],
  /- 0xb6 -/ codeseq [],
  /- 0xb7 -/ codeseq [],
  /- 0xb8 -/ codeseq [],
  /- 0xb9 -/ codeseq [],
  /- 0xba -/ codeseq [],
  /- 0xbb -/ codeseq [],
  /- 0xbc -/ codeseq [],
  /- 0xbd -/ codeseq [],
  /- 0xbe -/ codeseq [],
  /- 0xbf -/ codeseq [],
  /- 0xc0 -/ codeseq [],
  /- 0xc1 -/ codeseq [],
  /- 0xc2 -/ codeseq [],
  /- 0xc3 -/ codeseq [],
  /- 0xc4 -/ codeseq [],
  /- 0xc5 -/ codeseq [],
  /- 0xc6 -/ codeseq [],
  /- 0xc7 -/ codeseq [],
  /- 0xc8 -/ codeseq [],
  /- 0xc9 -/ codeseq [],
  /- 0xca -/ codeseq [],
  /- 0xcb -/ codeseq [],
  /- 0xcc -/ codeseq [],
  /- 0xcd -/ codeseq [],
  /- 0xce -/ codeseq [],
  /- 0xcf -/ codeseq [],
  /- 0xd0 -/ codeseq [],
  /- 0xd1 -/ codeseq [],
  /- 0xd2 -/ codeseq [],
  /- 0xd3 -/ codeseq [],
  /- 0xd4 -/ codeseq [],
  /- 0xd5 -/ codeseq [],
  /- 0xd6 -/ codeseq [],
  /- 0xd7 -/ codeseq [],
  /- 0xd8 -/ codeseq [],
  /- 0xd9 -/ codeseq [],
  /- 0xda -/ codeseq [],
  /- 0xdb -/ codeseq [],
  /- 0xdc -/ codeseq [],
  /- 0xdd -/ codeseq [],
  /- 0xde -/ codeseq [],
  /- 0xdf -/ codeseq [],
  /- 0xe0 -/ codeseq [M_DOWN ||| HID_KEY_ARROW_RIGHT],
  /- 0xe1 -/ codeseq [M_DOWN ||| HID_KEY_ARROW_LEFT],
  /- 0xe2 -/ codeseq [M_DOWN ||| HID_KEY_ARROW_UP],
  /- 0xe3 -/ codeseq [M_DOWN ||| HID_KEY_ARROW_DOWN],
  /- 0xe4 -/ codeseq [M_DOWN ||| HID_KEY_PAGE_DOWN],
  /- 0xe5 -/ codeseq [M_DOWN ||| HID_KEY_PAGE_UP],
  /- 0xe6 -/ codeseq [M_ENDSEQ ||| HID_KEY_BACKSLASH],
  /- 0xe7 -/ codeseq [M_SHIFT, M_SHIFT ||| M_ENDSEQ ||| HID_KEY_BACKSLASH],
  /- 0xe8 -/ codeseq [M_DOWN ||| M_META],
  /- 0xe9 -/ codeseq [M_DOWN ||| HID_KEY_PAUSE],
  /- 0xea -/ codeseq [M_DOWN ||| M_ALT],
  /- 0xeb -/ codeseq [],
  /- 0xec -/ codeseq [],
  /- 0xed -/ codeseq [],
  /- 0xee -/ codeseq [],
  /- 0xef -/ codeseq [],
  /- 0xf0 -/ codeseq [M_UP ||| HID_KEY_ARROW_RIGHT],
  /- 0xf1 -/ codeseq [M_UP ||| HID_KEY_ARROW_LEFT],
  /- 0xf2 -/ codeseq [M_UP ||| HID_KEY_ARROW_UP],
  /- 0xf3 -/ codeseq [M_UP ||| HID_KEY_ARROW_DOWN],
  /- 0xf4 -/ codeseq [M_UP ||| HID_KEY_PAGE_DOWN],
  /- 0xf5 -/ codeseq [M_UP ||| HID_KEY_PAGE_UP],
  /- 0xf6 -/ codeseq [M_ENDSEQ],
  /- 0xf7 -/ codeseq [M_SHIFT],
  /- 0xf8 -/ codeseq [M_UP ||| M_META],
  /- 0xf9 -/ codeseq [M_UP ||| HID_KEY_PAUSE],
  /- 0xfa -/ codeseq [M_UP ||| M_ALT],
  /- 0xfb -/ codeseq [],
  /- 0xfc -/ codeseq [],
  /- 0xfd -/ codeseq [],
  /- 0xfe -/ codeseq [],
  /- 0xff -/ codeseq []]

/-- Index the table: `nabu_to_hid[c]`. -/
def nabu_to_hid (c : Nat) : List Nat :=
  nabu_to_hid_table.getD c (codeseq [])

/-- The set of control bytes whose table entries are 3-step
Ctrl+key sequences (claim C1's enumeration). -/
def ctrl3Bytes : List Nat :=
  [0x01, 0x02, 0x03, 0x04, 0x05, 0x06, 0x07, 0x0b, 0x0c,
   0x0e, 0x0f, 0x10, 0x11, 0x12, 0x13, 0x14, 0x15, 0x16, 0x17,
   0x18, 0x19, 0x1a, 0x1d]

/-- Does a 6-slot entry have the exact shape
{Ctrl alone, Ctrl+key, Ctrl alone} with a visible key and no other
modifier or flag on any step? -/
def isCtrl3 (e : List Nat) : Bool :=
  match e with
  | [a, b, c, z3, z4, z5] =>
    a == M_CTRL && c == M_CTRL && z3 == 0 && z4 == 0 && z5 == 0 &&
    M_HIDKEY b != 0 && b == (M_CTRL ||| M_HIDKEY b)
  | _ => false

/-- Does a 6-slot entry have the exact shape
{Ctrl, Ctrl|Shift, Ctrl|Shift|key, Ctrl|Shift, Ctrl} for the given key? -/
def isCtrl5 (key : Nat) (e : List Nat) : Bool :=
  e == [M_CTRL, M_CTRL ||| M_SHIFT, M_CTRL ||| M_SHIFT ||| key,
        M_CTRL ||| M_SHIFT, M_CTRL, 0]

/-- Every step of an entry (before the zero sentinel padding) carries
the Ctrl modifier bit. -/
def ctrlEverywhere (e : List Nat) : Bool :=
  (e.takeWhile (· != 0)).all (fun m => m &&& M_CTRL != 0)


/-! The circular queue of `nabu_usb_keyboard.c` lines 116-189.  The
`data` array is a 64-element list; `prod`/`cons` are the C
`unsigned int` indices (always kept in 0..63 by `QUEUE_NEXT`).  The
mutex only serialises access and has no functional content. -/

def QUEUE_SIZE : Nat := 64
def QUEUE_MASK : Nat := QUEUE_SIZE - 1
def QUEUE_NEXT (n : Nat) : Nat := (n + 1) &&& QUEUE_MASK

structure cqueue where
  prod : Nat
  cons : Nat
  data : List Nat

def QUEUE_EMPTY_P (q : cqueue) : Bool := q.cons == q.prod
def QUEUE_FULL_P (q : cqueue) : Bool := QUEUE_NEXT q.prod == q.cons

/-- `queue_init`: `memset` to zero. -/
def queue_init : cqueue :=
  { prod := 0, cons := 0, data := List.replicate QUEUE_SIZE 0 }

/-- `queue_add`: store at `prod` and advance unless full; report success. -/
def queue_add (q : cqueue) (v : Nat) : cqueue × Bool :=
  if !QUEUE_FULL_P q then
    ({ q with data := q.data.set q.prod v, prod := QUEUE_NEXT q.prod }, true)
  else
    (q, false)

/-- Iterate `queue_add` over a list of values, collecting each call's
success flag in order. -/
def queue_addAll (q : cqueue) : List Nat → cqueue × List Bool
  | [] => (q, [])
  | v :: rest =>
    let r := queue_add q v
    let r2 := queue_addAll r.1 rest
    (r2.1, r.2 :: r2.2)

/-! Joystick decoding, `nabu_usb_keyboard.c` lines 690-748. -/

def JOY_LEFT : Nat := 1
def JOY_DOWN : Nat := 2
def JOY_RIGHT : Nat := 4
def JOY_UP : Nat := 8
def JOY_FIRE : Nat := 16
def JOY_DIR_MASK : Nat := JOY_LEFT ||| JOY_DOWN ||| JOY_RIGHT ||| JOY_UP

/-- The 16-entry `joy_to_dpad` direction table (designated
initializers; absent combinations are zero = centered). -/
def joy_to_dpad (d : Nat) : Nat :=
  if d = JOY_UP then GAMEPAD_HAT_UP
  else if d = (JOY_UP ||| JOY_RIGHT) then GAMEPAD_HAT_UP_RIGHT
  else if d = JOY_RIGHT then GAMEPAD_HAT_RIGHT
  else if d = (JOY_DOWN ||| JOY_RIGHT) then GAMEPAD_HAT_DOWN_RIGHT
  else if d = JOY_DOWN then GAMEPAD_HAT_DOWN
  else if d = (JOY_DOWN ||| JOY_LEFT) then GAMEPAD_HAT_DOWN_LEFT
  else if d = JOY_LEFT then GAMEPAD_HAT_LEFT
  else if d = (JOY_UP ||| JOY_LEFT) then GAMEPAD_HAT_UP_LEFT
  else 0

structure JoyReport where
  hat : Nat
  buttons : Nat
deriving DecidableEq

/-- `send_joy_report` (minus the transport call): build the gamepad
report for one joystick data byte. -/
def send_joy_report (data : Nat) : JoyReport :=
  { hat := joy_to_dpad (data &&& JOY_DIR_MASK),
    buttons := if data &&& JOY_FIRE != 0 then GAMEPAD_BUTTON_A else 0 }

/-- Modelled from the spec (§4.3): the intended hat value for a data
byte — centered on any physically impossible direction combination
(Up together with Down, or Left together with Right), otherwise the
compass state of the pressed directions. -/
def specHat (data : Nat) : Nat :=
  let up := data &&& JOY_UP != 0
  let down := data &&& JOY_DOWN != 0
  let left := data &&& JOY_LEFT != 0
  let right := data &&& JOY_RIGHT != 0
  if (up && down) || (left && right) then GAMEPAD_HAT_CENTERED
  else if up && right then GAMEPAD_HAT_UP_RIGHT
  else if down && right then GAMEPAD_HAT_DOWN_RIGHT
  else if down && left then GAMEPAD_HAT_DOWN_LEFT
  else if up && left then GAMEPAD_HAT_UP_LEFT
  else if up then GAMEPAD_HAT_UP
  else if right then GAMEPAD_HAT_RIGHT
  else if down then GAMEPAD_HAT_DOWN
  else if left then GAMEPAD_HAT_LEFT
  else GAMEPAD_HAT_CENTERED

/-! The Core-1 reader loop `nabu_keyboard_reader`, lines 1267-1319.
The loop classifies each received byte and enqueues it; here the
stream of received bytes is a list, and the three queue contents
produced by a run are accumulated (capacity/drop-newest is a property
of `queue_add`, treated separately).  `joy_instance` is `none` for
the C value -1. -/

structure ReaderOut where
  inst : Option Nat
  kbd : List Nat
  joy0 : List Nat
  joy1 : List Nat

def nabu_keyboard_reader (inst : Option Nat) : List Nat → ReaderOut
  | [] => { inst := inst, kbd := [], joy0 := [], joy1 := [] }
  | c :: rest =>
    if c = NABU_CODE_JOY0 ∨ c = NABU_CODE_JOY1 then
      nabu_keyboard_reader (some (c &&& 1)) rest
    else if NABU_CODE_JOYDAT_P c then
      match inst with
      | none => nabu_keyboard_reader none rest
      | some i =>
        let r := nabu_keyboard_reader none rest
        if i = 0 then { r with joy0 := c :: r.joy0 }
        else { r with joy1 := c :: r.joy1 }
    else if (nabu_to_hid c).headD 0 ≠ 0 ∨ NABU_CODE_ERR_P c then
      let r := nabu_keyboard_reader none rest
      { r with kbd := c :: r.kbd }
    else
      nabu_keyboard_reader none rest

/-- Modelled from the spec (§6 byte-class table): the bytes delivered
to joystick queue `i` are exactly the joystick data bytes whose
immediately preceding byte in the stream is the instance selector
`0x80 + i`. -/
def specSel (i : Nat) : List Nat → List Nat
  | a :: b :: rest =>
    (if NABU_CODE_JOYDAT_P b ∧ a = 0x80 + i then [b] else []) ++
      specSel i (b :: rest)
  | _ => []

/-- Modelled from the spec (§4.1/§6): the keyboard queue receives
exactly the non-selector, non-joystick-data bytes that either have a
non-empty table entry or are status/error bytes. -/
def specKbdKeep (c : Nat) : Bool :=
  !(c == NABU_CODE_JOY0 || c == NABU_CODE_JOY1) &&
  !NABU_CODE_JOYDAT_P c &&
  ((nabu_to_hid c).headD 0 != 0 || NABU_CODE_ERR_P c)

/-! The keyboard/system state shared by `hid_task`, `kbd_err_task`,
`kbd_deadcheck`, `kbd_reboot` and the USB callbacks
(`nabu_usb_keyboard.c` lines 191-194, 717-720, 750-755, 823-824,
868-904).  The three byte queues appear as FIFO lists.  `rebootCount`
is a ghost counter incremented by `kbd_reboot`, used to state
"exactly one reboot". -/

inductive Pattern where
  | not_mounted
  | wait_nabu
  | healthy
  | susp

structure Sys where
  kbdQueue : List Nat
  next : Option (List Nat)
  modifiers : Nat
  kbdZombie : Bool
  joy0Queue : List Nat
  joy0Zombie : Bool
  joy1Queue : List Nat
  joy1Zombie : Bool
  have_nabu : Bool
  kbd_powerstate : Bool
  last_kbd_message_time : Nat
  deadcheck_warned : Bool
  mounted : Bool
  suspended : Bool
  want_remote_wakeup : Bool
  pattern : Option Pattern
  rebootCount : Nat

/-- `led_select_sequence`: choose the blink pattern by fixed priority;
a no-op before the first `led_set_sequence` (pattern `none`). -/
def led_select_sequence (s : Sys) : Sys :=
  match s.pattern with
  | none => s
  | some _ =>
    { s with pattern := some <|
        if !s.mounted then Pattern.not_mounted
        else if s.suspended && !s.want_remote_wakeup then Pattern.susp
        else if s.have_nabu then Pattern.healthy
        else Pattern.wait_nabu }

/-- `kbd_setpower`: drive the power rail; powering off also clears
`have_nabu` and reselects the LED pattern. -/
def kbd_setpower (enabled : Bool) (s : Sys) : Sys :=
  let s1 := { s with kbd_powerstate := enabled }
  if !enabled then
    led_select_sequence { s1 with have_nabu := false }
  else
    s1

/-- `kbd_reboot`: power off, wait 4000 ms (the post-sleep clock value
is the parameter `now2`), drain all three queues, reset the last-byte
timestamp, set all three zombie flags, power back on. -/
def kbd_reboot (now2 : Nat) (s : Sys) : Sys :=
  let s1 := kbd_setpower false s
  let s2 := { s1 with
                kbdQueue := [], joy0Queue := [], joy1Queue := [],
                last_kbd_message_time := now2,
                kbdZombie := true, joy0Zombie := true, joy1Zombie := true,
                rebootCount := s1.rebootCount + 1 }
  kbd_setpower true s2

def DEADCHECK_WARN_MS : Nat := 5000
def DEADCHECK_DECLARE_MS : Nat := 10000

/-- 32-bit wraparound difference `(uint32_t)(a - b)` for `a b < 2^32`. -/
def u32sub (a b : Nat) : Nat := (a + (2 ^ 32 - b % 2 ^ 32)) % 2 ^ 32

/-- `kbd_deadcheck`: the liveness watchdog run each tick with the
current time `now`; `now2` is the clock value after the 4000 ms
reboot settle delay, used only if a reboot is triggered. -/
def kbd_deadcheck (now now2 : Nat) (s : Sys) : Sys :=
  if u32sub now s.last_kbd_message_time < DEADCHECK_WARN_MS then
    { s with deadcheck_warned := false }
  else if !s.have_nabu || !s.kbd_powerstate then
    { s with last_kbd_message_time := now }
  else if u32sub now s.last_kbd_message_time < DEADCHECK_DECLARE_MS then
    if !s.deadcheck_warned then { s with deadcheck_warned := true } else s
  else
    { kbd_reboot now2 s with deadcheck_warned := false }

structure Report where
  modifier : Nat
  keycode : Nat
deriving DecidableEq

/-- `keymod_to_hid`: extract the HID modifier byte from a 16-bit code. -/
def keymod_to_hid (code : Nat) : Nat := M_MODS code >>> 8

/-- `kbd_modifier`: set or clear a sticky modifier, returning the new
sticky bitmask and the code to report (`HID_KEY_NONE` on success, the
code itself in the nonsensical no-flag case).  The C version mutates
`kbd_context.modifiers`; here the bitmask is threaded explicitly.
`~M_MODS(code)` is 16-bit complement (`modifiers` is `uint16_t`). -/
def kbd_modifier (modifiers code : Nat) : Nat × Nat :=
  if code &&& M_DOWN != 0 then
    (modifiers ||| M_MODS code, HID_KEY_NONE)
  else if code &&& M_UP != 0 then
    (modifiers &&& (0xffff ^^^ M_MODS code), HID_KEY_NONE)
  else
    (modifiers, code)

/-- `send_kbd_report` (minus the transport call): build the keyboard
report for a 16-bit code given the current sticky bitmask.
`keycode = (uint8_t)code`. -/
def send_kbd_report (modifiers code : Nat) : Report :=
  { modifier := keymod_to_hid (code ||| modifiers),
    keycode := code % 256 }

/-- `kbd_err_task`: handle one status/error byte.  Returns the new
state, the C boolean result (true iff a reboot was performed) and the
keyboard report emitted, if any. -/
def kbd_err_task (now2 : Nat) (c : Nat) (s : Sys) : Sys × Bool × Option Report :=
  if c = NABU_CODE_ERR_MKEY then
    (s, false, some (send_kbd_report s.modifiers HID_KEY_NONE))
  else if c = NABU_CODE_ERR_RAM then
    (kbd_reboot now2 s, true, none)
  else if c = NABU_CODE_ERR_ROM then
    (kbd_reboot now2 s, true, none)
  else if c = NABU_CODE_ERR_ISR then
    (kbd_reboot now2 s, true, none)
  else if c = NABU_CODE_ERR_PING then
    (led_select_sequence { s with have_nabu := true }, false, none)
  else if c = NABU_CODE_ERR_RESET then
    (led_select_sequence { s with have_nabu := true }, false, none)
  else
    (s, false, none)

/-- `kbd_has_data_unlocked`. -/
def kbd_has_data (s : Sys) : Bool :=
  s.next.isSome || !s.kbdQueue.isEmpty || s.kbdZombie

/-- `joy_has_data_unlocked` for stick 0. -/
def joy0_has_data (s : Sys) : Bool :=
  !s.joy0Queue.isEmpty || s.joy0Zombie

/-- `joy_has_data_unlocked` for stick 1. -/
def joy1_has_data (s : Sys) : Bool :=
  !s.joy1Queue.isEmpty || s.joy1Zombie

/-- The outputs of one `hid_task` tick: the reports handed to
`tud_hid_n_report` on each interface, whether `tud_remote_wakeup` was
called, and whether `kbd_reboot` ran. -/
structure TickOut where
  kbdReport : Option Report
  joy0Report : Option JoyReport
  joy1Report : Option JoyReport
  wokeHost : Bool
  rebooted : Bool

def noOut : TickOut :=
  { kbdReport := none, joy0Report := none, joy1Report := none,
    wokeHost := false, rebooted := false }

/-- The suspended-path tail of `hid_task` (lines 1003-1007): request a
remote wakeup once if wanted. -/
def susp_wakeup (s : Sys) : Sys × TickOut :=
  if s.want_remote_wakeup then
    ({ s with want_remote_wakeup := false }, { noOut with wokeHost := true })
  else
    (s, noOut)

/-- The keyboard portion of `hid_task` (the
`if (tud_hid_n_ready(ITF_NUM_KBD))` block, lines 1010-1076), given
that the interface is ready.  Returns the new state, the report
emitted, and the C early-`return` flag (true iff `kbd_err_task`
rebooted). -/
def hid_task_kbd (now2 : Nat) (s : Sys) : Sys × Option Report × Bool :=
  match s.next with
  | some seq =>
    let code := seq.headD 0
    let next1 : Option (List Nat) :=
      if code = 0 ∨ code &&& M_ENDSEQ ≠ 0 then none else some seq.tail
    ({ s with next := next1 },
     some (send_kbd_report s.modifiers code), false)
  | none =>
    if s.kbdZombie then
      ({ s with kbdZombie := false, modifiers := 0 },
       some (send_kbd_report 0 HID_KEY_NONE), false)
    else
      match s.kbdQueue with
      | [] => (s, none, false)
      | c :: rest =>
        let s1 := { s with kbdQueue := rest }
        let sequence := nabu_to_hid c
        let code := sequence.headD 0
        if NABU_CODE_ERR_P c then
          let r := kbd_err_task now2 c s1
          if r.2.1 then
            (r.1, r.2.2, true)
          else
            (r.1, r.2.2, false)
        else if code ≠ 0 then
          if code &&& M_DOWN ≠ 0 then
            if M_HIDKEY code = 0 then
              let m := kbd_modifier s1.modifiers code
              ({ s1 with modifiers := m.1 },
               some (send_kbd_report m.1 m.2), false)
            else
              (s1, some (send_kbd_report s1.modifiers code), false)
          else if code &&& M_UP ≠ 0 then
            if M_HIDKEY code = 0 then
              let m := kbd_modifier s1.modifiers code
              ({ s1 with modifiers := m.1 },
               some (send_kbd_report m.1 m.2), false)
            else
              (s1, some (send_kbd_report s1.modifiers HID_KEY_NONE), false)
          else
            let s2 :=
              if code &&& M_ENDSEQ = 0 then { s1 with next := some sequence.tail }
              else s1
            (s2, some (send_kbd_report s2.modifiers code), false)
        else
          (s1, none, false)

/-- The stick-0 portion of the joystick loop (lines 1079-1088), given
that the interface is ready. -/
def hid_task_joy0 (s : Sys) : Sys × Option JoyReport :=
  if s.joy0Zombie then
    ({ s with joy0Zombie := false }, some (send_joy_report 0))
  else
    match s.joy0Queue with
    | [] => (s, none)
    | c :: rest => ({ s with joy0Queue := rest }, some (send_joy_report c))

/-- The stick-1 portion of the joystick loop, given that the
interface is ready. -/
def hid_task_joy1 (s : Sys) : Sys × Option JoyReport :=
  if s.joy1Zombie then
    ({ s with joy1Zombie := false }, some (send_joy_report 0))
  else
    match s.joy1Queue with
    | [] => (s, none)
    | c :: rest => ({ s with joy1Queue := rest }, some (send_joy_report c))

/-- One `hid_task` tick (lines 958-1089) that has passed the 10 ms
rate gate.  `kbdReady`/`joy0Ready`/`joy1Ready` model
`tud_hid_n_ready` for the three interfaces; `tud_suspended()` is the
`suspended` flag; `now2` is the post-settle clock value used if a
reboot occurs. -/
def hid_task (kbdReady joy0Ready joy1Ready : Bool) (now2 : Nat) (s : Sys) :
    Sys × TickOut :=
  if !(kbd_has_data s || joy0_has_data s || joy1_has_data s) then
    (s, noOut)
  else if s.suspended then
    match s.kbdQueue with
    | c :: rest =>
      if NABU_CODE_ERR_P c ∧ c ≠ NABU_CODE_ERR_MKEY then
        let r := kbd_err_task now2 c { s with kbdQueue := rest }
        (r.1, { noOut with kbdReport := r.2.2, rebooted := r.2.1 })
      else
        susp_wakeup s
    | [] => susp_wakeup s
  else
    let k :=
      if kbdReady then hid_task_kbd now2 s else (s, none, false)
    if k.2.2 then
      (k.1, { noOut with kbdReport := k.2.1, rebooted := true })
    else
      let j0 := if joy0Ready then hid_task_joy0 k.1 else (k.1, none)
      let j1 := if joy1Ready then hid_task_joy1 j0.1 else (j0.1, none)
      (j1.1,
       { noOut with
         kbdReport := k.2.1
         joy0Report := j0.2
         joy1Report := j1.2 })

/-- Run `n` ticks of `hid_task` with all interfaces ready and collect
the per-tick outputs in order. -/
def run_hid (now2 : Nat) : Nat → Sys → Sys × List TickOut
  | 0, s => (s, [])
  | n + 1, s =>
    let r := hid_task true true true now2 s
    let r2 := run_hid now2 n r.1
    (r2.1, r.2 :: r2.2)

/-- A baseline healthy idle state: mounted, peripheral seen and
powered, all queues empty, no cursor, no sticky modifiers, no zombie
flags, not suspended. -/
def idleSys : Sys :=
  { kbdQueue := [], next := none, modifiers := 0, kbdZombie := false,
    joy0Queue := [], joy0Zombie := false,
    joy1Queue := [], joy1Zombie := false,
    have_nabu := true, kbd_powerstate := true,
    last_kbd_message_time := 0, deadcheck_warned := false,
    mounted := true, suspended := false, want_remote_wakeup := false,
    pattern := some Pattern.healthy, rebootCount := 0 }

/-! HID modifier-byte bits (TinyUSB `hid.h`); `M_CTRL` etc. are these
shifted left by 8. -/

def KEYBOARD_MODIFIER_LEFTCTRL : Nat := 1
def KEYBOARD_MODIFIER_LEFTSHIFT : Nat := 2
def KEYBOARD_MODIFIER_LEFTALT : Nat := 4
def KEYBOARD_MODIFIER_LEFTGUI : Nat := 8

/-- The reader's `joy_instance` value after it processes byte `c`:
a selector byte installs its instance, every other byte leaves the
machine reset.  (It does not depend on the previous value.) -/
def selUpdate (c : Nat) : Option Nat :=
  if c = NABU_CODE_JOY0 ∨ c = NABU_CODE_JOY1 then some (c &&& 1) else none

/-! Field-preservation helper lemmas: `led_select_sequence` touches
only `pattern`; `kbd_reboot` has a fixed effect on each field. -/

@[simp] lemma led_select_kbdQueue (s : Sys) :
    (led_select_sequence s).kbdQueue = s.kbdQueue := by
  unfold led_select_sequence; cases s.pattern <;> rfl

@[simp] lemma led_select_next (s : Sys) :
    (led_select_sequence s).next = s.next := by
  unfold led_select_sequence; cases s.pattern <;> rfl

@[simp] lemma led_select_modifiers (s : Sys) :
    (led_select_sequence s).modifiers = s.modifiers := by
  unfold led_select_sequence; cases s.pattern <;> rfl

@[simp] lemma led_select_kbdZombie (s : Sys) :
    (led_select_sequence s).kbdZombie = s.kbdZombie := by
  unfold led_select_sequence; cases s.pattern <;> rfl

@[simp] lemma led_select_joy0Queue (s : Sys) :
    (led_select_sequence s).joy0Queue = s.joy0Queue := by
  unfold led_select_sequence; cases s.pattern <;> rfl

@[simp] lemma led_select_joy0Zombie (s : Sys) :
    (led_select_sequence s).joy0Zombie = s.joy0Zombie := by
  unfold led_select_sequence; cases s.pattern <;> rfl

@[simp] lemma led_select_joy1Queue (s : Sys) :
    (led_select_sequence s).joy1Queue = s.joy1Queue := by
  unfold led_select_sequence; cases s.pattern <;> rfl

@[simp] lemma led_select_joy1Zombie (s : Sys) :
    (led_select_sequence s).joy1Zombie = s.joy1Zombie := by
  unfold led_select_sequence; cases s.pattern <;> rfl

@[simp] lemma led_select_have_nabu (s : Sys) :
    (led_select_sequence s).have_nabu = s.have_nabu := by
  unfold led_select_sequence; cases s.pattern <;> rfl

@[simp] lemma led_select_kbd_powerstate (s : Sys) :
    (led_select_sequence s).kbd_powerstate = s.kbd_powerstate := by
  unfold led_select_sequence; cases s.pattern <;> rfl

@[simp] lemma led_select_last (s : Sys) :
    (led_select_sequence s).last_kbd_message_time = s.last_kbd_message_time := by
  unfold led_select_sequence; cases s.pattern <;> rfl

@[simp] lemma led_select_warned (s : Sys) :
    (led_select_sequence s).deadcheck_warned = s.deadcheck_warned := by
  unfold led_select_sequence; cases s.pattern <;> rfl

@[simp] lemma led_select_mounted (s : Sys) :
    (led_select_sequence s).mounted = s.mounted := by
  unfold led_select_sequence; cases s.pattern <;> rfl

@[simp] lemma led_select_suspended (s : Sys) :
    (led_select_sequence s).suspended = s.suspended := by
  unfold led_select_sequence; cases s.pattern <;> rfl

@[simp] lemma led_select_wrw (s : Sys) :
    (led_select_sequence s).want_remote_wakeup = s.want_remote_wakeup := by
  unfold led_select_sequence; cases s.pattern <;> rfl

@[simp] lemma led_select_rebootCount (s : Sys) :
    (led_select_sequence s).rebootCount = s.rebootCount := by
  unfold led_select_sequence; cases s.pattern <;> rfl

@[simp] lemma kbd_reboot_kbdQueue (now2 : Nat) (s : Sys) :
    (kbd_reboot now2 s).kbdQueue = [] := by
  simp [kbd_reboot, kbd_setpower]

@[simp] lemma kbd_reboot_joy0Queue (now2 : Nat) (s : Sys) :
    (kbd_reboot now2 s).joy0Queue = [] := by
  simp [kbd_reboot, kbd_setpower]

@[simp] lemma kbd_reboot_joy1Queue (now2 : Nat) (s : Sys) :
    (kbd_reboot now2 s).joy1Queue = [] := by
  simp [kbd_reboot, kbd_setpower]

@[simp] lemma kbd_reboot_kbdZombie (now2 : Nat) (s : Sys) :
    (kbd_reboot now2 s).kbdZombie = true := by
  simp [kbd_reboot, kbd_setpower]

@[simp] lemma kbd_reboot_joy0Zombie (now2 : Nat) (s : Sys) :
    (kbd_reboot now2 s).joy0Zombie = true := by
  simp [kbd_reboot, kbd_setpower]

@[simp] lemma kbd_reboot_joy1Zombie (now2 : Nat) (s : Sys) :
    (kbd_reboot now2 s).joy1Zombie = true := by
  simp [kbd_reboot, kbd_setpower]

@[simp] lemma kbd_reboot_last (now2 : Nat) (s : Sys) :
    (kbd_reboot now2 s).last_kbd_message_time = now2 := by
  simp [kbd_reboot, kbd_setpower]

@[simp] lemma kbd_reboot_rebootCount (now2 : Nat) (s : Sys) :
    (kbd_reboot now2 s).rebootCount = s.rebootCount + 1 := by
  simp [kbd_reboot, kbd_setpower]

@[simp] lemma kbd_reboot_have_nabu (now2 : Nat) (s : Sys) :
    (kbd_reboot now2 s).have_nabu = false := by
  simp [kbd_reboot, kbd_setpower]

@[simp] lemma kbd_reboot_powerstate (now2 : Nat) (s : Sys) :
    (kbd_reboot now2 s).kbd_powerstate = true := by
  simp [kbd_reboot, kbd_setpower]

@[simp] lemma kbd_reboot_next (now2 : Nat) (s : Sys) :
    (kbd_reboot now2 s).next = s.next := by
  simp [kbd_reboot, kbd_setpower]

@[simp] lemma kbd_reboot_modifiers (now2 : Nat) (s : Sys) :
    (kbd_reboot now2 s).modifiers = s.modifiers := by
  simp [kbd_reboot, kbd_setpower]

@[simp] lemma kbd_reboot_wrw (now2 : Nat) (s : Sys) :
    (kbd_reboot now2 s).want_remote_wakeup = s.want_remote_wakeup := by
  simp [kbd_reboot, kbd_setpower]

@[simp] lemma kbd_reboot_suspended (now2 : Nat) (s : Sys) :
    (kbd_reboot now2 s).suspended = s.suspended := by
  simp [kbd_reboot, kbd_setpower]

/-- C6: from an empty capacity-64 queue, 64 back-to-back enqueues
succeed for exactly the first 63 and fail for the 64th; a failed
enqueue leaves the queue (contents and both indices) unchanged; the
63 retained bytes sit unoverwritten in slots 0-62 in arrival order. -/
theorem c6_queue_bound :
    ((queue_addAll queue_init ((List.range 64).map (· + 100))).2 =
      List.replicate 63 true ++ [false]) ∧
    ((queue_addAll queue_init ((List.range 64).map (· + 100))).1.data =
      ((List.range 64).map (· + 100)).take 63 ++ [0]) ∧
    ((queue_addAll queue_init ((List.range 64).map (· + 100))).1.prod = 63) ∧
    ((queue_addAll queue_init ((List.range 64).map (· + 100))).1.cons = 0) ∧
    (∀ q v, (queue_add q v).2 = false → (queue_add q v).1 = q) := by
  refine ⟨by decide, by decide, by decide, by decide, ?_⟩
  intro q v h
  unfold queue_add at h ⊢
  by_cases hf : QUEUE_FULL_P q = true
  · simp [hf]
  · simp [hf] at h

/-- C6 witness: a 65th enqueue on the saturated queue fails and
leaves it unchanged. -/
theorem c6_queue_bound_witness :
    (queue_add (queue_addAll queue_init ((List.range 64).map (· + 100))).1 7).1 =
      (queue_addAll queue_init ((List.range 64).map (· + 100))).1 :=
  c6_queue_bound.2.2.2.2 _ 7 (by decide)

/-- C8: for every data byte, the emitted gamepad report's hat equals
the spec's compass mapping (centered on impossible combinations) and
its button is pressed iff the Fire bit is set; in particular 0xB1
gives hat LEFT with the button pressed and 0xA0 gives centered with
the button released. -/
theorem c8_joystick_decode :
    (∀ d, d < 256 →
      (send_joy_report d).hat = specHat d ∧
      ((send_joy_report d).buttons = GAMEPAD_BUTTON_A ↔ d &&& JOY_FIRE ≠ 0)) ∧
    send_joy_report 0xb1 =
      { hat := GAMEPAD_HAT_LEFT, buttons := GAMEPAD_BUTTON_A } ∧
    send_joy_report 0xa0 =
      { hat := GAMEPAD_HAT_CENTERED, buttons := 0 } := by
  refine ⟨by decide, by decide, by decide⟩

/-- C8 witness: the general hat/button property evaluated at 0xB1. -/
theorem c8_joystick_decode_witness :
    (send_joy_report 0xb1).hat = specHat 0xb1 ∧
    ((send_joy_report 0xb1).buttons = GAMEPAD_BUTTON_A ↔ 0xb1 &&& JOY_FIRE ≠ 0) :=
  c8_joystick_decode.1 0xb1 (by decide)

/-- C4: handling of the reserved status bytes 0x90-0x95 by
`kbd_err_task`: 0x90 emits one no-key report and does not reboot;
0x91, 0x92, 0x93 reboot and emit nothing; 0x94 and 0x95 set
`have_nabu`, reselect the LED pattern, and neither report nor reboot;
and no byte other than 0x91, 0x92, 0x93 ever reboots through this
path. -/
theorem c4_err_task (now2 : Nat) (s : Sys) :
    (kbd_err_task now2 NABU_CODE_ERR_MKEY s =
      (s, false, some (send_kbd_report s.modifiers HID_KEY_NONE))) ∧
    ((send_kbd_report s.modifiers HID_KEY_NONE).keycode = HID_KEY_NONE) ∧
    (kbd_err_task now2 NABU_CODE_ERR_RAM s = (kbd_reboot now2 s, true, none)) ∧
    (kbd_err_task now2 NABU_CODE_ERR_ROM s = (kbd_reboot now2 s, true, none)) ∧
    (kbd_err_task now2 NABU_CODE_ERR_ISR s = (kbd_reboot now2 s, true, none)) ∧
    (kbd_err_task now2 NABU_CODE_ERR_PING s =
      (led_select_sequence { s with have_nabu := true }, false, none)) ∧
    (kbd_err_task now2 NABU_CODE_ERR_RESET s =
      (led_select_sequence { s with have_nabu := true }, false, none)) ∧
    ((kbd_err_task now2 NABU_CODE_ERR_PING s).1.have_nabu = true) ∧
    ((kbd_err_task now2 NABU_CODE_ERR_RESET s).1.have_nabu = true) ∧
    (∀ c, (kbd_err_task now2 c s).2.1 = true →
      c = NABU_CODE_ERR_RAM ∨ c = NABU_CODE_ERR_ROM ∨ c = NABU_CODE_ERR_ISR) := by
  refine ⟨?_, ?_, ?_, ?_, ?_, ?_, ?_, ?_, ?_, ?_⟩
  · simp [kbd_err_task, NABU_CODE_ERR_MKEY]
  · simp [send_kbd_report, HID_KEY_NONE]
  · simp [kbd_err_task, NABU_CODE_ERR_MKEY, NABU_CODE_ERR_RAM]
  · simp [kbd_err_task, NABU_CODE_ERR_MKEY, NABU_CODE_ERR_RAM, NABU_CODE_ERR_ROM]
  · simp [kbd_err_task, NABU_CODE_ERR_MKEY, NABU_CODE_ERR_RAM, NABU_CODE_ERR_ROM,
          NABU_CODE_ERR_ISR]
  · simp [kbd_err_task, NABU_CODE_ERR_MKEY, NABU_CODE_ERR_RAM, NABU_CODE_ERR_ROM,
          NABU_CODE_ERR_ISR, NABU_CODE_ERR_PING]
  · simp [kbd_err_task, NABU_CODE_ERR_MKEY, NABU_CODE_ERR_RAM, NABU_CODE_ERR_ROM,
          NABU_CODE_ERR_ISR, NABU_CODE_ERR_PING, NABU_CODE_ERR_RESET]
  · simp [kbd_err_task, NABU_CODE_ERR_MKEY, NABU_CODE_ERR_RAM, NABU_CODE_ERR_ROM,
          NABU_CODE_ERR_ISR, NABU_CODE_ERR_PING]
  · simp [kbd_err_task, NABU_CODE_ERR_MKEY, NABU_CODE_ERR_RAM, NABU_CODE_ERR_ROM,
          NABU_CODE_ERR_ISR, NABU_CODE_ERR_PING, NABU_CODE_ERR_RESET]
  · intro c h
    unfold kbd_err_task at h
    split_ifs at h with h0 h1 h2 h3 h4 h5 <;> simp_all

/-- C4 witness: the no-reboot characterisation applied at the RAM
fault byte, plus the concrete multi-key case. -/
theorem c4_err_task_witness :
    (kbd_err_task 3 NABU_CODE_ERR_MKEY idleSys =
      (idleSys, false, some (send_kbd_report idleSys.modifiers HID_KEY_NONE))) ∧
    (NABU_CODE_ERR_RAM = NABU_CODE_ERR_RAM ∨ NABU_CODE_ERR_RAM = NABU_CODE_ERR_ROM ∨
      NABU_CODE_ERR_RAM = NABU_CODE_ERR_ISR) :=
  ⟨(c4_err_task 3 idleSys).1,
   (c4_err_task 3 idleSys).2.2.2.2.2.2.2.2.2 NABU_CODE_ERR_RAM (by decide)⟩

/-- C3: with the peripheral seen and powered and at least 10000 ms of
silence, the deadcheck performs exactly one reboot, after which all
three queues are empty, all three zombie flags are set, and the
last-byte timestamp is the post-settle time `now2`; a later deadcheck
within a fresh 10000 ms window performs no further reboot. -/
theorem c3_deadcheck_reboot (now now2 : Nat) (s : Sys)
    (h1 : s.have_nabu = true) (h2 : s.kbd_powerstate = true)
    (h3 : DEADCHECK_DECLARE_MS ≤ u32sub now s.last_kbd_message_time) :
    (kbd_deadcheck now now2 s).rebootCount = s.rebootCount + 1 ∧
    (kbd_deadcheck now now2 s).kbdQueue = [] ∧
    (kbd_deadcheck now now2 s).joy0Queue = [] ∧
    (kbd_deadcheck now now2 s).joy1Queue = [] ∧
    (kbd_deadcheck now now2 s).kbdZombie = true ∧
    (kbd_deadcheck now now2 s).joy0Zombie = true ∧
    (kbd_deadcheck now now2 s).joy1Zombie = true ∧
    (kbd_deadcheck now now2 s).last_kbd_message_time = now2 ∧
    (∀ now3 now4, u32sub now3 now2 < DEADCHECK_DECLARE_MS →
      (kbd_deadcheck now3 now4 (kbd_deadcheck now now2 s)).rebootCount =
        (kbd_deadcheck now now2 s).rebootCount) := by
  have h3' : 10000 ≤ u32sub now s.last_kbd_message_time := by
    simpa [DEADCHECK_DECLARE_MS] using h3
  have hd : kbd_deadcheck now now2 s =
      { kbd_reboot now2 s with deadcheck_warned := false } := by
    unfold kbd_deadcheck
    split_ifs with ha hb hc hw
    · exact absurd ha (by simp [DEADCHECK_WARN_MS]; omega)
    · exact absurd hb (by simp [h1, h2])
    · exact absurd hc (by simp [DEADCHECK_DECLARE_MS]; omega)
    · exact absurd hc (by simp [DEADCHECK_DECLARE_MS]; omega)
    · rfl
  rw [hd]
  refine ⟨by simp, by simp, by simp, by simp, by simp, by simp, by simp, by simp, ?_⟩
  intro now3 now4 hlt
  unfold kbd_deadcheck
  split_ifs with ha hb hc hd2 <;> simp_all

/-- C3 witness: the reboot characterisation at a concrete silent
state (last byte at t=0, deadcheck at t=20000, settle ends t=24000). -/
theorem c3_deadcheck_reboot_witness :
    (kbd_deadcheck 20000 24000 idleSys).rebootCount = idleSys.rebootCount + 1 ∧
    (kbd_deadcheck 20000 24000 idleSys).kbdQueue = [] ∧
    (kbd_deadcheck 20000 24000 idleSys).joy0Queue = [] ∧
    (kbd_deadcheck 20000 24000 idleSys).joy1Queue = [] ∧
    (kbd_deadcheck 20000 24000 idleSys).kbdZombie = true ∧
    (kbd_deadcheck 20000 24000 idleSys).joy0Zombie = true ∧
    (kbd_deadcheck 20000 24000 idleSys).joy1Zombie = true ∧
    (kbd_deadcheck 20000 24000 idleSys).last_kbd_message_time = 24000 ∧
    (∀ now3 now4, u32sub now3 24000 < DEADCHECK_DECLARE_MS →
      (kbd_deadcheck now3 now4 (kbd_deadcheck 20000 24000 idleSys)).rebootCount =
        (kbd_deadcheck 20000 24000 idleSys).rebootCount) :=
  c3_deadcheck_reboot 20000 24000 idleSys rfl rfl (by decide)

/-- C2: every keyboard report's modifier byte is the modifier bits of
the emitted code OR-ed with the sticky bitmask current at emission
time (`send_kbd_report` is the single emission point); consequently
the stream Meta-down (0xE8), letter a (0x61), Meta-up (0xF8) produces
reports ⟨Meta,none⟩, ⟨Meta,A⟩, ⟨Meta,none⟩, ⟨none,none⟩: every report
from the Meta-down report up to but not including the Meta-up report
carries the Meta bit, and none at or after the Meta-up does. -/
theorem c2_sticky_modifier :
    (∀ modifiers code, (send_kbd_report modifiers code).modifier =
      keymod_to_hid code ||| keymod_to_hid modifiers) ∧
    ((run_hid 0 5 { idleSys with kbdQueue := [0xe8, 0x61, 0xf8] }).2.map
        (·.kbdReport) =
      [some { modifier := 8, keycode := 0 },
       some { modifier := 8, keycode := 4 },
       some { modifier := 8, keycode := 0 },
       some { modifier := 0, keycode := 0 },
       none]) ∧
    ((((run_hid 0 5 { idleSys with kbdQueue := [0xe8, 0x61, 0xf8] }).2.filterMap
        (·.kbdReport)).take 3).all
      (fun r => r.modifier &&& KEYBOARD_MODIFIER_LEFTGUI != 0) = true) ∧
    ((((run_hid 0 5 { idleSys with kbdQueue := [0xe8, 0x61, 0xf8] }).2.filterMap
        (·.kbdReport)).drop 3).all
      (fun r => r.modifier &&& KEYBOARD_MODIFIER_LEFTGUI == 0) = true) := by
  refine ⟨?_, by decide, by decide, by decide⟩
  intro modifiers code
  unfold send_kbd_report keymod_to_hid M_MODS
  apply Nat.eq_of_testBit_eq
  intro i
  simp only [Nat.testBit_or, Nat.testBit_and, Nat.testBit_shiftRight]
  cases hx : Nat.testBit code (8 + i) <;>
    cases hy : Nat.testBit modifiers (8 + i) <;>
      simp [hx, hy]

/-- C9 counterexample: byte 0xF0 is a key-up whose table code carries
the visible key ArrowRight (0x4F), yet dequeuing it from an idle
engine emits a report whose keycode is HID_KEY_NONE (0), not 0x4F. -/
theorem c9_oneshot_counterexample :
    ((nabu_to_hid 0xf0).headD 0 &&& M_UP ≠ 0) ∧
    (M_HIDKEY ((nabu_to_hid 0xf0).headD 0) = HID_KEY_ARROW_RIGHT) ∧
    (HID_KEY_ARROW_RIGHT ≠ HID_KEY_NONE) ∧
    ((hid_task true true true 0 { idleSys with kbdQueue := [0xf0] }).2.kbdReport =
      some { modifier := 0, keycode := HID_KEY_NONE }) := by
  refine ⟨by decide, by decide, by decide, by decide⟩

/-- C9 (amended): an idle tick dequeuing a key-down byte with a
visible key (0xE0-0xE5, 0xE9) emits exactly one report carrying that
HID key code and does not set the sequence cursor; dequeuing the
mirrored key-up byte (0xF0-0xF5, 0xF9) likewise emits exactly one
report without setting the cursor, but that report carries
HID_KEY_NONE (the release), not the key code. -/
theorem c9_oneshot_amended (now2 : Nat) (s : Sys) (c : Nat) (rest : List Nat)
    (hn : s.next = none) (hz : s.kbdZombie = false) (hq : s.kbdQueue = c :: rest)
    (hc : c ∈ ([0xe0, 0xe1, 0xe2, 0xe3, 0xe4, 0xe5, 0xe9] : List Nat) ∨
          c ∈ ([0xf0, 0xf1, 0xf2, 0xf3, 0xf4, 0xf5, 0xf9] : List Nat)) :
    (hid_task_kbd now2 s).1.next = none ∧
    (hid_task_kbd now2 s).1.kbdQueue = rest ∧
    (c ∈ ([0xe0, 0xe1, 0xe2, 0xe3, 0xe4, 0xe5, 0xe9] : List Nat) →
      ∃ r, (hid_task_kbd now2 s).2.1 = some r ∧
        r.keycode = M_HIDKEY ((nabu_to_hid c).headD 0)) ∧
    (c ∈ ([0xf0, 0xf1, 0xf2, 0xf3, 0xf4, 0xf5, 0xf9] : List Nat) →
      ∃ r, (hid_task_kbd now2 s).2.1 = some r ∧
        r.keycode = HID_KEY_NONE) := by
  have he0 : nabu_to_hid 0xe0 = [0x104f, 0, 0, 0, 0, 0] := by decide
  have he1 : nabu_to_hid 0xe1 = [0x1050, 0, 0, 0, 0, 0] := by decide
  have he2 : nabu_to_hid 0xe2 = [0x1052, 0, 0, 0, 0, 0] := by decide
  have he3 : nabu_to_hid 0xe3 = [0x1051, 0, 0, 0, 0, 0] := by decide
  have he4 : nabu_to_hid 0xe4 = [0x104e, 0, 0, 0, 0, 0] := by decide
  have he5 : nabu_to_hid 0xe5 = [0x104b, 0, 0, 0, 0, 0] := by decide
  have he9 : nabu_to_hid 0xe9 = [0x1048, 0, 0, 0, 0, 0] := by decide
  have hf0 : nabu_to_hid 0xf0 = [0x204f, 0, 0, 0, 0, 0] := by decide
  have hf1 : nabu_to_hid 0xf1 = [0x2050, 0, 0, 0, 0, 0] := by decide
  have hf2 : nabu_to_hid 0xf2 = [0x2052, 0, 0, 0, 0, 0] := by decide
  have hf3 : nabu_to_hid 0xf3 = [0x2051, 0, 0, 0, 0, 0] := by decide
  have hf4 : nabu_to_hid 0xf4 = [0x204e, 0, 0, 0, 0, 0] := by decide
  have hf5 : nabu_to_hid 0xf5 = [0x204b, 0, 0, 0, 0, 0] := by decide
  have hf9 : nabu_to_hid 0xf9 = [0x2048, 0, 0, 0, 0, 0] := by decide
  rcases hc with hc | hc <;> fin_cases hc <;>
    simp +decide [hid_task_kbd, hn, hz, hq, he0, he1, he2, he3, he4, he5, he9,
          hf0, hf1, hf2, hf3, hf4, hf5, hf9, NABU_CODE_ERR_P,
          NABU_CODE_ERR_FIRST, NABU_CODE_ERR_LAST, M_HIDKEY, M_DOWN, M_UP,
          M_ENDSEQ, HID_KEY_NONE, send_kbd_report, keymod_to_hid, M_MODS]

/-- C9 witness: the amended one-shot behaviour at the key-down byte
0xE0 and (for the hypotheses) concrete idle state. -/
theorem c9_oneshot_amended_witness :
    (hid_task_kbd 0 { idleSys with kbdQueue := [0xe0] }).1.next = none ∧
    (hid_task_kbd 0 { idleSys with kbdQueue := [0xe0] }).1.kbdQueue = [] ∧
    ((0xe0 : Nat) ∈ ([0xe0, 0xe1, 0xe2, 0xe3, 0xe4, 0xe5, 0xe9] : List Nat) →
      ∃ r, (hid_task_kbd 0 { idleSys with kbdQueue := [0xe0] }).2.1 = some r ∧
        r.keycode = M_HIDKEY ((nabu_to_hid 0xe0).headD 0)) ∧
    ((0xe0 : Nat) ∈ ([0xf0, 0xf1, 0xf2, 0xf3, 0xf4, 0xf5, 0xf9] : List Nat) →
      ∃ r, (hid_task_kbd 0 { idleSys with kbdQueue := [0xe0] }).2.1 = some r ∧
        r.keycode = HID_KEY_NONE) :=
  c9_oneshot_amended 0 { idleSys with kbdQueue := [0xe0] } 0xe0 []
    rfl rfl rfl (Or.inl (by decide))

/-! Behaviour lemmas for the pieces of `hid_task`. -/

@[simp] lemma susp_wakeup_fst (s : Sys) :
    (susp_wakeup s).1 = { s with want_remote_wakeup := false } := by
  unfold susp_wakeup
  cases s
  split_ifs with h <;> simp_all

@[simp] lemma susp_wakeup_out (s : Sys) :
    (susp_wakeup s).2 = { noOut with wokeHost := s.want_remote_wakeup } := by
  unfold susp_wakeup
  split_ifs with h <;> simp_all [noOut]

lemma err_task_rebooted (now2 c : Nat) (s : Sys) :
    (kbd_err_task now2 c s).2.1 =
      (c == NABU_CODE_ERR_RAM || c == NABU_CODE_ERR_ROM || c == NABU_CODE_ERR_ISR) := by
  unfold kbd_err_task
  split_ifs with h0 h1 h2 h3 h4 h5 <;>
    simp_all [NABU_CODE_ERR_MKEY, NABU_CODE_ERR_RAM, NABU_CODE_ERR_ROM,
              NABU_CODE_ERR_ISR, NABU_CODE_ERR_PING, NABU_CODE_ERR_RESET]

lemma err_task_kbdQueue (now2 c : Nat) (s : Sys) :
    (kbd_err_task now2 c s).1.kbdQueue =
      if c == NABU_CODE_ERR_RAM || c == NABU_CODE_ERR_ROM || c == NABU_CODE_ERR_ISR
      then [] else s.kbdQueue := by
  unfold kbd_err_task
  split_ifs with h0 h1 h2 h3 h4 h5 <;>
    simp_all [NABU_CODE_ERR_MKEY, NABU_CODE_ERR_RAM, NABU_CODE_ERR_ROM,
              NABU_CODE_ERR_ISR, NABU_CODE_ERR_PING, NABU_CODE_ERR_RESET]

lemma err_task_wrw (now2 c : Nat) (s : Sys) :
    (kbd_err_task now2 c s).1.want_remote_wakeup = s.want_remote_wakeup := by
  unfold kbd_err_task
  split_ifs <;> simp

lemma err_task_kbdZombie_true (now2 c : Nat) (s : Sys) (h : s.kbdZombie = true) :
    (kbd_err_task now2 c s).1.kbdZombie = true := by
  unfold kbd_err_task
  split_ifs <;> simp [h]

lemma err_task_joy0Zombie_true (now2 c : Nat) (s : Sys) (h : s.joy0Zombie = true) :
    (kbd_err_task now2 c s).1.joy0Zombie = true := by
  unfold kbd_err_task
  split_ifs <;> simp [h]

lemma err_task_joy1Zombie_true (now2 c : Nat) (s : Sys) (h : s.joy1Zombie = true) :
    (kbd_err_task now2 c s).1.joy1Zombie = true := by
  unfold kbd_err_task
  split_ifs <;> simp [h]

lemma err_task_joys_noreboot (now2 c : Nat) (s : Sys)
    (h : (kbd_err_task now2 c s).2.1 = false) :
    (kbd_err_task now2 c s).1.joy0Queue = s.joy0Queue ∧
    (kbd_err_task now2 c s).1.joy0Zombie = s.joy0Zombie ∧
    (kbd_err_task now2 c s).1.joy1Queue = s.joy1Queue ∧
    (kbd_err_task now2 c s).1.joy1Zombie = s.joy1Zombie := by
  unfold kbd_err_task at h ⊢
  split_ifs at h ⊢ <;> simp_all

@[simp] lemma hid_task_joy0_kbdQueue (s : Sys) :
    (hid_task_joy0 s).1.kbdQueue = s.kbdQueue := by
  unfold hid_task_joy0
  by_cases h : s.joy0Zombie = true <;>
    rcases hq : s.joy0Queue with _ | ⟨a, t⟩ <;> simp [h, hq]

@[simp] lemma hid_task_joy0_next (s : Sys) :
    (hid_task_joy0 s).1.next = s.next := by
  unfold hid_task_joy0
  by_cases h : s.joy0Zombie = true <;>
    rcases hq : s.joy0Queue with _ | ⟨a, t⟩ <;> simp [h, hq]

@[simp] lemma hid_task_joy0_modifiers (s : Sys) :
    (hid_task_joy0 s).1.modifiers = s.modifiers := by
  unfold hid_task_joy0
  by_cases h : s.joy0Zombie = true <;>
    rcases hq : s.joy0Queue with _ | ⟨a, t⟩ <;> simp [h, hq]

@[simp] lemma hid_task_joy0_kbdZombie (s : Sys) :
    (hid_task_joy0 s).1.kbdZombie = s.kbdZombie := by
  unfold hid_task_joy0
  by_cases h : s.joy0Zombie = true <;>
    rcases hq : s.joy0Queue with _ | ⟨a, t⟩ <;> simp [h, hq]

@[simp] lemma hid_task_joy0_joy1Queue (s : Sys) :
    (hid_task_joy0 s).1.joy1Queue = s.joy1Queue := by
  unfold hid_task_joy0
  by_cases h : s.joy0Zombie = true <;>
    rcases hq : s.joy0Queue with _ | ⟨a, t⟩ <;> simp [h, hq]

@[simp] lemma hid_task_joy0_joy1Zombie (s : Sys) :
    (hid_task_joy0 s).1.joy1Zombie = s.joy1Zombie := by
  unfold hid_task_joy0
  by_cases h : s.joy0Zombie = true <;>
    rcases hq : s.joy0Queue with _ | ⟨a, t⟩ <;> simp [h, hq]

@[simp] lemma hid_task_joy1_kbdQueue (s : Sys) :
    (hid_task_joy1 s).1.kbdQueue = s.kbdQueue := by
  unfold hid_task_joy1
  by_cases h : s.joy1Zombie = true <;>
    rcases hq : s.joy1Queue with _ | ⟨a, t⟩ <;> simp [h, hq]

@[simp] lemma hid_task_joy1_next (s : Sys) :
    (hid_task_joy1 s).1.next = s.next := by
  unfold hid_task_joy1
  by_cases h : s.joy1Zombie = true <;>
    rcases hq : s.joy1Queue with _ | ⟨a, t⟩ <;> simp [h, hq]

@[simp] lemma hid_task_joy1_modifiers (s : Sys) :
    (hid_task_joy1 s).1.modifiers = s.modifiers := by
  unfold hid_task_joy1
  by_cases h : s.joy1Zombie = true <;>
    rcases hq : s.joy1Queue with _ | ⟨a, t⟩ <;> simp [h, hq]

@[simp] lemma hid_task_joy1_kbdZombie (s : Sys) :
    (hid_task_joy1 s).1.kbdZombie = s.kbdZombie := by
  unfold hid_task_joy1
  by_cases h : s.joy1Zombie = true <;>
    rcases hq : s.joy1Queue with _ | ⟨a, t⟩ <;> simp [h, hq]

@[simp] lemma hid_task_joy1_joy0Queue (s : Sys) :
    (hid_task_joy1 s).1.joy0Queue = s.joy0Queue := by
  unfold hid_task_joy1
  by_cases h : s.joy1Zombie = true <;>
    rcases hq : s.joy1Queue with _ | ⟨a, t⟩ <;> simp [h, hq]

@[simp] lemma hid_task_joy1_joy0Zombie (s : Sys) :
    (hid_task_joy1 s).1.joy0Zombie = s.joy0Zombie := by
  unfold hid_task_joy1
  by_cases h : s.joy1Zombie = true <;>
    rcases hq : s.joy1Queue with _ | ⟨a, t⟩ <;> simp [h, hq]

lemma hid_task_joy0_zombie (s : Sys) (h : s.joy0Zombie = true) :
    hid_task_joy0 s = ({ s with joy0Zombie := false }, some (send_joy_report 0)) := by
  unfold hid_task_joy0
  simp [h]

lemma hid_task_joy1_zombie (s : Sys) (h : s.joy1Zombie = true) :
    hid_task_joy1 s = ({ s with joy1Zombie := false }, some (send_joy_report 0)) := by
  unfold hid_task_joy1
  simp [h]

lemma hid_task_kbd_next_some (now2 : Nat) (s : Sys) (seq : List Nat)
    (h : s.next = some seq) :
    (hid_task_kbd now2 s).1.kbdZombie = s.kbdZombie ∧
    (hid_task_kbd now2 s).1.kbdQueue = s.kbdQueue ∧
    (hid_task_kbd now2 s).2.2 = false ∧
    ((hid_task_kbd now2 s).1.joy0Queue = s.joy0Queue ∧
     (hid_task_kbd now2 s).1.joy0Zombie = s.joy0Zombie ∧
     (hid_task_kbd now2 s).1.joy1Queue = s.joy1Queue ∧
     (hid_task_kbd now2 s).1.joy1Zombie = s.joy1Zombie) := by
  unfold hid_task_kbd
  simp [h]

lemma hid_task_kbd_zombie_branch (now2 : Nat) (s : Sys)
    (hn : s.next = none) (hz : s.kbdZombie = true) :
    hid_task_kbd now2 s =
      ({ s with kbdZombie := false, modifiers := 0 },
       some (send_kbd_report 0 HID_KEY_NONE), false) := by
  unfold hid_task_kbd
  simp [hn, hz]

lemma hid_task_kbd_zombie_cleared (now2 : Nat) (s : Sys)
    (hz : s.kbdZombie = true) (hcl : (hid_task_kbd now2 s).1.kbdZombie = false) :
    hid_task_kbd now2 s =
      ({ s with kbdZombie := false, modifiers := 0 },
       some (send_kbd_report 0 HID_KEY_NONE), false) := by
  by_cases hnone : s.next = none
  · exact hid_task_kbd_zombie_branch now2 s hnone hz
  · obtain ⟨seq, hseq⟩ := Option.ne_none_iff_exists'.mp hnone
    have h2 := (hid_task_kbd_next_some now2 s seq hseq).1
    rw [hcl, hz] at h2
    exact absurd h2 (by decide)

lemma hid_task_kbd_flag_next_some (now2 : Nat) (s : Sys) (seq : List Nat)
    (h : s.next = some seq) : (hid_task_kbd now2 s).2.2 = false :=
  (hid_task_kbd_next_some now2 s seq h).2.2.1

lemma hid_task_kbd_empty (now2 : Nat) (s : Sys) (hn : s.next = none)
    (hz : s.kbdZombie = false) (hq : s.kbdQueue = []) :
    hid_task_kbd now2 s = (s, none, false) := by
  unfold hid_task_kbd
  simp [hn, hz, hq]

lemma hid_task_kbd_err (now2 : Nat) (s : Sys) (c : Nat) (rest : List Nat)
    (hn : s.next = none) (hz : s.kbdZombie = false) (hq : s.kbdQueue = c :: rest)
    (herr : NABU_CODE_ERR_P c = true) :
    hid_task_kbd now2 s =
      ((kbd_err_task now2 c { s with kbdQueue := rest }).1,
       (kbd_err_task now2 c { s with kbdQueue := rest }).2.2,
       (kbd_err_task now2 c { s with kbdQueue := rest }).2.1) := by
  unfold hid_task_kbd
  rw [hn, hz, hq]
  simp only [herr]
  split_ifs with hflag <;> simp_all

lemma hid_task_kbd_nonerr_joys (now2 : Nat) (s : Sys) (c : Nat) (rest : List Nat)
    (hn : s.next = none) (hz : s.kbdZombie = false) (hq : s.kbdQueue = c :: rest)
    (herr : NABU_CODE_ERR_P c = false) :
    (hid_task_kbd now2 s).1.joy0Queue = s.joy0Queue ∧
    (hid_task_kbd now2 s).1.joy0Zombie = s.joy0Zombie ∧
    (hid_task_kbd now2 s).1.joy1Queue = s.joy1Queue ∧
    (hid_task_kbd now2 s).1.joy1Zombie = s.joy1Zombie ∧
    (hid_task_kbd now2 s).2.2 = false := by
  unfold hid_task_kbd
  simp only [hn, hz, hq, herr]
  split_ifs <;> simp

lemma hid_task_kbd_joy0Zombie_true (now2 : Nat) (s : Sys) (h : s.joy0Zombie = true) :
    (hid_task_kbd now2 s).1.joy0Zombie = true := by
  rcases hnext : s.next with _ | seq
  · cases hz : s.kbdZombie
    · rcases hq : s.kbdQueue with _ | ⟨c, rest⟩
      · rw [hid_task_kbd_empty now2 s hnext hz hq]
        exact h
      · cases herr : NABU_CODE_ERR_P c
        · rw [← h]
          exact (hid_task_kbd_nonerr_joys now2 s c rest hnext hz hq herr).2.1
        · rw [hid_task_kbd_err now2 s c rest hnext hz hq herr]
          exact err_task_joy0Zombie_true now2 c _ (by simp [h])
    · rw [hid_task_kbd_zombie_branch now2 s hnext hz]
      exact h
  · rw [← h]
    exact (hid_task_kbd_next_some now2 s seq hnext).2.2.2.2.1

lemma hid_task_kbd_joy1Zombie_true (now2 : Nat) (s : Sys) (h : s.joy1Zombie = true) :
    (hid_task_kbd now2 s).1.joy1Zombie = true := by
  rcases hnext : s.next with _ | seq
  · cases hz : s.kbdZombie
    · rcases hq : s.kbdQueue with _ | ⟨c, rest⟩
      · rw [hid_task_kbd_empty now2 s hnext hz hq]
        exact h
      · cases herr : NABU_CODE_ERR_P c
        · rw [← h]
          exact (hid_task_kbd_nonerr_joys now2 s c rest hnext hz hq herr).2.2.2.1
        · rw [hid_task_kbd_err now2 s c rest hnext hz hq herr]
          exact err_task_joy1Zombie_true now2 c _ (by simp [h])
    · rw [hid_task_kbd_zombie_branch now2 s hnext hz]
      exact h
  · rw [← h]
    exact (hid_task_kbd_next_some now2 s seq hnext).2.2.2.2.2.2

lemma hid_task_kbd_noreboot_joys (now2 : Nat) (s : Sys)
    (h : (hid_task_kbd now2 s).2.2 = false) :
    (hid_task_kbd now2 s).1.joy0Queue = s.joy0Queue ∧
    (hid_task_kbd now2 s).1.joy0Zombie = s.joy0Zombie ∧
    (hid_task_kbd now2 s).1.joy1Queue = s.joy1Queue ∧
    (hid_task_kbd now2 s).1.joy1Zombie = s.joy1Zombie := by
  rcases hnext : s.next with _ | seq
  · cases hz : s.kbdZombie
    · rcases hq : s.kbdQueue with _ | ⟨c, rest⟩
      · rw [hid_task_kbd_empty now2 s hnext hz hq]
        exact ⟨rfl, rfl, rfl, rfl⟩
      · cases herr : NABU_CODE_ERR_P c
        · have h2 := hid_task_kbd_nonerr_joys now2 s c rest hnext hz hq herr
          exact ⟨h2.1, h2.2.1, h2.2.2.1, h2.2.2.2.1⟩
        · rw [hid_task_kbd_err now2 s c rest hnext hz hq herr] at h ⊢
          exact err_task_joys_noreboot now2 c _ h
    · rw [hid_task_kbd_zombie_branch now2 s hnext hz]
      exact ⟨rfl, rfl, rfl, rfl⟩
  · have h2 := (hid_task_kbd_next_some now2 s seq hnext).2.2.2
    exact h2

lemma err_task_rebooted_zombies (now2 c : Nat) (s : Sys)
    (h : (kbd_err_task now2 c s).2.1 = true) :
    (kbd_err_task now2 c s).1.kbdZombie = true ∧
    (kbd_err_task now2 c s).1.joy0Zombie = true ∧
    (kbd_err_task now2 c s).1.joy1Zombie = true := by
  unfold kbd_err_task at h ⊢
  split_ifs at h ⊢ <;> simp_all

lemma hid_task_kbd_flag_true_zombies (now2 : Nat) (s : Sys)
    (h : (hid_task_kbd now2 s).2.2 = true) :
    (hid_task_kbd now2 s).1.kbdZombie = true ∧
    (hid_task_kbd now2 s).1.joy0Zombie = true ∧
    (hid_task_kbd now2 s).1.joy1Zombie = true := by
  rcases hnext : s.next with _ | seq
  · cases hz : s.kbdZombie
    · rcases hq : s.kbdQueue with _ | ⟨c, rest⟩
      · rw [hid_task_kbd_empty now2 s hnext hz hq] at h
        simp at h
      · cases herr : NABU_CODE_ERR_P c
        · have h2 := (hid_task_kbd_nonerr_joys now2 s c rest hnext hz hq herr).2.2.2.2
          rw [h] at h2
          exact absurd h2 (by decide)
        · rw [hid_task_kbd_err now2 s c rest hnext hz hq herr] at h ⊢
          exact err_task_rebooted_zombies now2 c _ h
    · rw [hid_task_kbd_zombie_branch now2 s hnext hz] at h
      simp at h
  · have h2 := hid_task_kbd_flag_next_some now2 s seq hnext
    rw [h] at h2
    exact absurd h2 (by decide)

lemma hid_task_not_suspended (kr j0r j1r : Bool) (now2 : Nat) (s : Sys)
    (hw : (kbd_has_data s || joy0_has_data s || joy1_has_data s) = true)
    (hs : s.suspended = false) :
    hid_task kr j0r j1r now2 s =
      (let k := if kr then hid_task_kbd now2 s else (s, none, false)
       if k.2.2 then
         (k.1, { noOut with kbdReport := k.2.1, rebooted := true })
       else
         let j0 := if j0r then hid_task_joy0 k.1 else (k.1, none)
         let j1 := if j1r then hid_task_joy1 j0.1 else (j0.1, none)
         (j1.1,
          { noOut with
            kbdReport := k.2.1
            joy0Report := j0.2
            joy1Report := j1.2 })) := by
  unfold hid_task
  simp [hw, hs]

lemma hid_task_susp_err (kr j0r j1r : Bool) (now2 : Nat) (s : Sys)
    (c : Nat) (rest : List Nat) (hs : s.suspended = true)
    (hw : (kbd_has_data s || joy0_has_data s || joy1_has_data s) = true)
    (hq : s.kbdQueue = c :: rest) (herr : NABU_CODE_ERR_P c = true)
    (hne : c ≠ NABU_CODE_ERR_MKEY) :
    hid_task kr j0r j1r now2 s =
      ((kbd_err_task now2 c { s with kbdQueue := rest }).1,
       { noOut with
         kbdReport := (kbd_err_task now2 c { s with kbdQueue := rest }).2.2
         rebooted := (kbd_err_task now2 c { s with kbdQueue := rest }).2.1 }) := by
  unfold hid_task
  rw [hq]
  simp [hw, hs, herr, hne]

lemma hid_task_susp_wake_nil (kr j0r j1r : Bool) (now2 : Nat) (s : Sys)
    (hs : s.suspended = true)
    (hw : (kbd_has_data s || joy0_has_data s || joy1_has_data s) = true)
    (hq : s.kbdQueue = []) :
    hid_task kr j0r j1r now2 s = susp_wakeup s := by
  unfold hid_task
  rw [hq]
  simp [hw, hs]

lemma hid_task_susp_wake_cons (kr j0r j1r : Bool) (now2 : Nat) (s : Sys)
    (c : Nat) (rest : List Nat) (hs : s.suspended = true)
    (hw : (kbd_has_data s || joy0_has_data s || joy1_has_data s) = true)
    (hq : s.kbdQueue = c :: rest)
    (hcond : ¬(NABU_CODE_ERR_P c = true ∧ c ≠ NABU_CODE_ERR_MKEY)) :
    hid_task kr j0r j1r now2 s = susp_wakeup s := by
  unfold hid_task
  rw [hq]
  rw [if_neg (by simp [hw])]
  rw [if_pos hs]
  exact if_neg hcond

lemma hid_task_susp_zombies (kr j0r j1r : Bool) (now2 : Nat) (s : Sys)
    (hs : s.suspended = true) :
    (s.kbdZombie = true → (hid_task kr j0r j1r now2 s).1.kbdZombie = true) ∧
    (s.joy0Zombie = true → (hid_task kr j0r j1r now2 s).1.joy0Zombie = true) ∧
    (s.joy1Zombie = true → (hid_task kr j0r j1r now2 s).1.joy1Zombie = true) := by
  cases hw : (kbd_has_data s || joy0_has_data s || joy1_has_data s)
  · unfold hid_task
    simp [hw]
  · rcases hq : s.kbdQueue with _ | ⟨c, rest⟩
    · rw [hid_task_susp_wake_nil kr j0r j1r now2 s hs hw hq]
      simp
    · by_cases hcond : NABU_CODE_ERR_P c = true ∧ c ≠ NABU_CODE_ERR_MKEY
      · rw [hid_task_susp_err kr j0r j1r now2 s c rest hs hw hq hcond.1 hcond.2]
        refine ⟨fun h => ?_, fun h => ?_, fun h => ?_⟩
        · exact err_task_kbdZombie_true now2 c _ (by simp [h])
        · exact err_task_joy0Zombie_true now2 c _ (by simp [h])
        · exact err_task_joy1Zombie_true now2 c _ (by simp [h])
      · rw [hid_task_susp_wake_cons kr j0r j1r now2 s c rest hs hw hq hcond]
        simp

/-- C5: zombie flags are only cleared by emitting a report.  Keyboard:
an in-flight sequence drains first (zombie preserved while the cursor
is set); once idle, the clearing tick resets the sticky bitmask,
emits exactly one neutral report and leaves the queue untouched; if
the zombie flag transitions true→false the neutral report was
emitted.  Each joystick: the clearing tick emits exactly one
centered/no-button report before any queued byte is consumed, and a
true→false transition always comes with that report. -/
theorem c5_zombie_resolution :
    (∀ (now2 : Nat) (j0r j1r : Bool) (s : Sys) (seq : List Nat),
      s.suspended = false → s.kbdZombie = true → s.next = some seq →
      (hid_task true j0r j1r now2 s).1.kbdZombie = true ∧
      (hid_task true j0r j1r now2 s).1.kbdQueue = s.kbdQueue) ∧
    (∀ (now2 : Nat) (j0r j1r : Bool) (s : Sys),
      s.suspended = false → s.kbdZombie = true → s.next = none →
      (hid_task true j0r j1r now2 s).1.kbdZombie = false ∧
      (hid_task true j0r j1r now2 s).1.modifiers = 0 ∧
      (hid_task true j0r j1r now2 s).2.kbdReport =
        some (send_kbd_report 0 HID_KEY_NONE) ∧
      (hid_task true j0r j1r now2 s).1.kbdQueue = s.kbdQueue) ∧
    send_kbd_report 0 HID_KEY_NONE = { modifier := 0, keycode := 0 } ∧
    (∀ (kr j0r j1r : Bool) (now2 : Nat) (s : Sys),
      s.kbdZombie = true →
      (hid_task kr j0r j1r now2 s).1.kbdZombie = false →
      (hid_task kr j0r j1r now2 s).2.kbdReport =
        some (send_kbd_report 0 HID_KEY_NONE)) ∧
    (∀ (kr j1r : Bool) (now2 : Nat) (s : Sys),
      s.suspended = false → s.joy0Zombie = true →
      (hid_task kr true j1r now2 s).2.rebooted = false →
      (hid_task kr true j1r now2 s).1.joy0Zombie = false ∧
      (hid_task kr true j1r now2 s).2.joy0Report = some (send_joy_report 0) ∧
      (hid_task kr true j1r now2 s).1.joy0Queue = s.joy0Queue) ∧
    (∀ (kr j0r : Bool) (now2 : Nat) (s : Sys),
      s.suspended = false → s.joy1Zombie = true →
      (hid_task kr j0r true now2 s).2.rebooted = false →
      (hid_task kr j0r true now2 s).1.joy1Zombie = false ∧
      (hid_task kr j0r true now2 s).2.joy1Report = some (send_joy_report 0) ∧
      (hid_task kr j0r true now2 s).1.joy1Queue = s.joy1Queue) ∧
    send_joy_report 0 = { hat := GAMEPAD_HAT_CENTERED, buttons := 0 } ∧
    (∀ (kr j0r j1r : Bool) (now2 : Nat) (s : Sys),
      s.joy0Zombie = true →
      (hid_task kr j0r j1r now2 s).1.joy0Zombie = false →
      (hid_task kr j0r j1r now2 s).2.joy0Report = some (send_joy_report 0)) ∧
    (∀ (kr j0r j1r : Bool) (now2 : Nat) (s : Sys),
      s.joy1Zombie = true →
      (hid_task kr j0r j1r now2 s).1.joy1Zombie = false →
      (hid_task kr j0r j1r now2 s).2.joy1Report = some (send_joy_report 0)) := by
  refine ⟨?_, ?_, by decide, ?_, ?_, ?_, by decide, ?_, ?_⟩
  · -- sequence completion takes priority over zombie handling
    intro now2 j0r j1r s seq hs hz hn
    have hw : (kbd_has_data s || joy0_has_data s || joy1_has_data s) = true := by
      simp [kbd_has_data, hz]
    have hk := hid_task_kbd_next_some now2 s seq hn
    rw [hid_task_not_suspended true j0r j1r now2 s hw hs]
    cases j0r <;> cases j1r <;>
      simp [hk.1, hk.2.1, hk.2.2.1, hz]
  · -- the zombie-clearing tick
    intro now2 j0r j1r s hs hz hn
    have hw : (kbd_has_data s || joy0_has_data s || joy1_has_data s) = true := by
      simp [kbd_has_data, hz]
    rw [hid_task_not_suspended true j0r j1r now2 s hw hs,
        hid_task_kbd_zombie_branch now2 s hn hz]
    cases j0r <;> cases j1r <;> simp
  · -- keyboard zombie cleared only with the neutral report
    intro kr j0r j1r now2 s hz hcl
    cases hsusp : s.suspended
    · have hw : (kbd_has_data s || joy0_has_data s || joy1_has_data s) = true := by
        simp [kbd_has_data, hz]
      rw [hid_task_not_suspended kr j0r j1r now2 s hw hsusp] at hcl ⊢
      cases kr
      · cases j0r <;> cases j1r <;> simp [hz] at hcl
      · cases hkf : (hid_task_kbd now2 s).2.2
        · cases j0r <;> cases j1r <;>
            · simp [hkf] at hcl ⊢
              rw [hid_task_kbd_zombie_cleared now2 s hz hcl]
        · have h3 := (hid_task_kbd_flag_true_zombies now2 s hkf).1
          simp [hkf] at hcl
          rw [hcl] at h3
          exact absurd h3 (by decide)
    · have h2 := (hid_task_susp_zombies kr j0r j1r now2 s hsusp).1 hz
      rw [hcl] at h2
      exact absurd h2 (by decide)
  · -- joystick 0 zombie-clearing tick
    intro kr j1r now2 s hs hz0 hnr
    have hw : (kbd_has_data s || joy0_has_data s || joy1_has_data s) = true := by
      simp [joy0_has_data, hz0]
    rw [hid_task_not_suspended kr true j1r now2 s hw hs] at hnr ⊢
    cases kr
    · cases j1r <;> simp [hid_task_joy0_zombie, hz0]
    · cases hkf : (hid_task_kbd now2 s).2.2
      · have hjz := (hid_task_kbd_noreboot_joys now2 s hkf).2.1.trans hz0
        have hjq := (hid_task_kbd_noreboot_joys now2 s hkf).1
        cases j1r <;> simp [hkf, hid_task_joy0_zombie, hjz, hjq]
      · simp [hkf] at hnr
  · -- joystick 1 zombie-clearing tick
    intro kr j0r now2 s hs hz1 hnr
    have hw : (kbd_has_data s || joy0_has_data s || joy1_has_data s) = true := by
      simp [joy1_has_data, hz1]
    rw [hid_task_not_suspended kr j0r true now2 s hw hs] at hnr ⊢
    cases kr
    · cases j0r <;> simp [hid_task_joy1_zombie, hz1]
    · cases hkf : (hid_task_kbd now2 s).2.2
      · have hjz := (hid_task_kbd_noreboot_joys now2 s hkf).2.2.2.trans hz1
        have hjq := (hid_task_kbd_noreboot_joys now2 s hkf).2.2.1
        cases j0r <;> simp [hkf, hid_task_joy1_zombie, hjz, hjq]
      · simp [hkf] at hnr
  · -- joystick 0 zombie cleared only with the centered report
    intro kr j0r j1r now2 s hz0 hcl
    cases hsusp : s.suspended
    · have hw : (kbd_has_data s || joy0_has_data s || joy1_has_data s) = true := by
        simp [joy0_has_data, hz0]
      rw [hid_task_not_suspended kr j0r j1r now2 s hw hsusp] at hcl ⊢
      cases kr
      · cases j0r <;> cases j1r <;>
          simp [hid_task_joy0_zombie, hz0] at hcl ⊢
      · cases hkf : (hid_task_kbd now2 s).2.2
        · have hjz := (hid_task_kbd_noreboot_joys now2 s hkf).2.1.trans hz0
          cases j0r
          · cases j1r <;> simp [hkf, hjz] at hcl
          · cases j1r <;> simp [hkf, hid_task_joy0_zombie, hjz]
        · have h3 := (hid_task_kbd_flag_true_zombies now2 s hkf).2.1
          simp [hkf] at hcl
          rw [hcl] at h3
          exact absurd h3 (by decide)
    · have h2 := (hid_task_susp_zombies kr j0r j1r now2 s hsusp).2.1 hz0
      rw [hcl] at h2
      exact absurd h2 (by decide)
  · -- joystick 1 zombie cleared only with the centered report
    intro kr j0r j1r now2 s hz1 hcl
    cases hsusp : s.suspended
    · have hw : (kbd_has_data s || joy0_has_data s || joy1_has_data s) = true := by
        simp [joy1_has_data, hz1]
      rw [hid_task_not_suspended kr j0r j1r now2 s hw hsusp] at hcl ⊢
      cases kr
      · cases j0r <;> cases j1r <;>
          simp [hid_task_joy1_zombie, hz1] at hcl ⊢
      · cases hkf : (hid_task_kbd now2 s).2.2
        · have hjz := (hid_task_kbd_noreboot_joys now2 s hkf).2.2.2.trans hz1
          cases j1r
          · cases j0r <;> simp [hkf, hjz] at hcl
          · cases j0r <;> simp [hkf, hid_task_joy1_zombie, hjz]
        · have h3 := (hid_task_kbd_flag_true_zombies now2 s hkf).2.2
          simp [hkf] at hcl
          rw [hcl] at h3
          exact absurd h3 (by decide)
    · have h2 := (hid_task_susp_zombies kr j0r j1r now2 s hsusp).2.2 hz1
      rw [hcl] at h2
      exact absurd h2 (by decide)

/-- C5 witness: the keyboard zombie-clearing tick at a concrete
post-reboot idle state. -/
theorem c5_zombie_resolution_witness :
    (hid_task true true true 0 { idleSys with kbdZombie := true }).1.kbdZombie =
      false ∧
    (hid_task true true true 0 { idleSys with kbdZombie := true }).1.modifiers =
      0 ∧
    (hid_task true true true 0 { idleSys with kbdZombie := true }).2.kbdReport =
      some (send_kbd_report 0 HID_KEY_NONE) ∧
    (hid_task true true true 0 { idleSys with kbdZombie := true }).1.kbdQueue =
      ({ idleSys with kbdZombie := true } : Sys).kbdQueue :=
  c5_zombie_resolution.2.1 0 true true { idleSys with kbdZombie := true }
    rfl rfl rfl

/-- C10: during USB suspend with pending work, a tick consumes the
head of the keyboard queue only when it is a status byte other than
the multi-key byte 0x90, processes it (rebooting exactly for
0x91-0x93) without requesting a remote wakeup; otherwise the queue is
untouched, no report is emitted, and a remote wakeup is requested
exactly when the want-remote-wakeup flag was set, which the tick then
clears — so a wakeup is requested at most once per suspend period. -/
theorem c10_suspended_tick (kr j0r j1r : Bool) (now2 : Nat) (s : Sys)
    (hs : s.suspended = true)
    (hw : (kbd_has_data s || joy0_has_data s || joy1_has_data s) = true) :
    (∀ c rest, s.kbdQueue = c :: rest → NABU_CODE_ERR_P c = true →
      c ≠ NABU_CODE_ERR_MKEY →
      (hid_task kr j0r j1r now2 s).2.wokeHost = false ∧
      (hid_task kr j0r j1r now2 s).1.want_remote_wakeup = s.want_remote_wakeup ∧
      (hid_task kr j0r j1r now2 s).2.rebooted =
        (c == NABU_CODE_ERR_RAM || c == NABU_CODE_ERR_ROM ||
         c == NABU_CODE_ERR_ISR) ∧
      (hid_task kr j0r j1r now2 s).1.kbdQueue =
        (if c == NABU_CODE_ERR_RAM || c == NABU_CODE_ERR_ROM ||
            c == NABU_CODE_ERR_ISR
         then [] else rest)) ∧
    (∀ c rest, s.kbdQueue = c :: rest →
      ¬(NABU_CODE_ERR_P c = true ∧ c ≠ NABU_CODE_ERR_MKEY) →
      (hid_task kr j0r j1r now2 s).1.kbdQueue = s.kbdQueue ∧
      (hid_task kr j0r j1r now2 s).2.kbdReport = none ∧
      (hid_task kr j0r j1r now2 s).2.joy0Report = none ∧
      (hid_task kr j0r j1r now2 s).2.joy1Report = none ∧
      (hid_task kr j0r j1r now2 s).2.rebooted = false ∧
      (hid_task kr j0r j1r now2 s).2.wokeHost = s.want_remote_wakeup ∧
      (hid_task kr j0r j1r now2 s).1.want_remote_wakeup = false) ∧
    (s.kbdQueue = [] →
      (hid_task kr j0r j1r now2 s).2.wokeHost = s.want_remote_wakeup ∧
      (hid_task kr j0r j1r now2 s).1.want_remote_wakeup = false) ∧
    (∀ s2 : Sys, s2.want_remote_wakeup = false →
      (hid_task kr j0r j1r now2 s2).2.wokeHost = false) := by
  refine ⟨?_, ?_, ?_, ?_⟩
  · intro c rest hq herr hne
    rw [hid_task_susp_err kr j0r j1r now2 s c rest hs hw hq herr hne]
    refine ⟨rfl, ?_, ?_, ?_⟩
    · rw [err_task_wrw]
    · simp [err_task_rebooted]
    · simp [err_task_kbdQueue]
  · intro c rest hq hcond
    rw [hid_task_susp_wake_cons kr j0r j1r now2 s c rest hs hw hq hcond]
    simp [noOut]
  · intro hq
    rw [hid_task_susp_wake_nil kr j0r j1r now2 s hs hw hq]
    simp [noOut]
  · intro s2 hwrw
    cases hw2 : (kbd_has_data s2 || joy0_has_data s2 || joy1_has_data s2)
    · unfold hid_task
      simp [hw2, noOut]
    · cases hs2 : s2.suspended
      · rw [hid_task_not_suspended kr j0r j1r now2 s2 hw2 hs2]
        cases hkf : (if kr then hid_task_kbd now2 s2 else (s2, none, false)).2.2 <;>
          simp [hkf, noOut]
      · rcases hq2 : s2.kbdQueue with _ | ⟨c2, rest2⟩
        · rw [hid_task_susp_wake_nil kr j0r j1r now2 s2 hs2 hw2 hq2]
          simp [hwrw]
        · by_cases hcond2 : NABU_CODE_ERR_P c2 = true ∧ c2 ≠ NABU_CODE_ERR_MKEY
          · rw [hid_task_susp_err kr j0r j1r now2 s2 c2 rest2 hs2 hw2 hq2
                  hcond2.1 hcond2.2]
            simp [noOut]
          · rw [hid_task_susp_wake_cons kr j0r j1r now2 s2 c2 rest2 hs2 hw2 hq2
                  hcond2]
            simp [hwrw]

/-- C10 witness: a suspended tick consuming the RAM-fault byte with
the want-remote-wakeup flag set (rebooting, not waking the host). -/
theorem c10_suspended_tick_witness :
    (hid_task true true true 7
        { idleSys with
          suspended := true
          want_remote_wakeup := true
          kbdQueue := [NABU_CODE_ERR_RAM] }).2.wokeHost = false ∧
    (hid_task true true true 7
        { idleSys with
          suspended := true
          want_remote_wakeup := true
          kbdQueue := [NABU_CODE_ERR_RAM] }).1.want_remote_wakeup =
      ({ idleSys with
          suspended := true
          want_remote_wakeup := true
          kbdQueue := [NABU_CODE_ERR_RAM] } : Sys).want_remote_wakeup ∧
    (hid_task true true true 7
        { idleSys with
          suspended := true
          want_remote_wakeup := true
          kbdQueue := [NABU_CODE_ERR_RAM] }).2.rebooted =
      (NABU_CODE_ERR_RAM == NABU_CODE_ERR_RAM ||
       NABU_CODE_ERR_RAM == NABU_CODE_ERR_ROM ||
       NABU_CODE_ERR_RAM == NABU_CODE_ERR_ISR) ∧
    (hid_task true true true 7
        { idleSys with
          suspended := true
          want_remote_wakeup := true
          kbdQueue := [NABU_CODE_ERR_RAM] }).1.kbdQueue =
      (if NABU_CODE_ERR_RAM == NABU_CODE_ERR_RAM ||
          NABU_CODE_ERR_RAM == NABU_CODE_ERR_ROM ||
          NABU_CODE_ERR_RAM == NABU_CODE_ERR_ISR
       then [] else []) :=
  (c10_suspended_tick true true true 7
      { idleSys with
          suspended := true
          want_remote_wakeup := true
          kbdQueue := [NABU_CODE_ERR_RAM] } rfl (by decide)).1
    NABU_CODE_ERR_RAM [] rfl (by decide) (by decide)

/-! Stream lemmas for the reader loop. -/

lemma reader_cons (inst : Option Nat) (b : Nat) (rest : List Nat) :
    nabu_keyboard_reader inst (b :: rest) =
      if b = NABU_CODE_JOY0 ∨ b = NABU_CODE_JOY1 then
        nabu_keyboard_reader (some (b &&& 1)) rest
      else if NABU_CODE_JOYDAT_P b then
        match inst with
        | none => nabu_keyboard_reader none rest
        | some i =>
          let r := nabu_keyboard_reader none rest
          if i = 0 then { r with joy0 := b :: r.joy0 }
          else { r with joy1 := b :: r.joy1 }
      else if (nabu_to_hid b).headD 0 ≠ 0 ∨ NABU_CODE_ERR_P b then
        let r := nabu_keyboard_reader none rest
        { r with kbd := b :: r.kbd }
      else
        nabu_keyboard_reader none rest := by
  simp only [nabu_keyboard_reader]

lemma specSel_cons (i a b : Nat) (rest : List Nat) :
    specSel i (a :: b :: rest) =
      (if NABU_CODE_JOYDAT_P b ∧ a = 0x80 + i then [b] else []) ++
        specSel i (b :: rest) := by
  rw [specSel]

lemma reader_sel_aux (bs : List Nat) : ∀ a : Nat,
    (nabu_keyboard_reader (selUpdate a) bs).joy0 = specSel 0 (a :: bs) ∧
    (nabu_keyboard_reader (selUpdate a) bs).joy1 = specSel 1 (a :: bs) := by
  induction bs with
  | nil =>
    intro a
    constructor <;> simp [nabu_keyboard_reader, specSel]
  | cons b rest ih =>
    intro a
    rw [reader_cons, specSel_cons 0 a b rest, specSel_cons 1 a b rest]
    by_cases hsel : b = NABU_CODE_JOY0 ∨ b = NABU_CODE_JOY1
    · have hjd : NABU_CODE_JOYDAT_P b = false := by
        rcases hsel with h | h <;> subst h <;> decide
      have hs2 : some (b &&& 1) = selUpdate b := by simp [selUpdate, hsel]
      rw [if_pos hsel, hs2]
      simp [hjd, (ih b).1, (ih b).2]
    · rw [if_neg hsel]
      have hs2 : selUpdate b = none := by simp [selUpdate, hsel]
      have h0 := (ih b).1
      have h1 := (ih b).2
      rw [hs2] at h0 h1
      by_cases hjd : NABU_CODE_JOYDAT_P b = true
      · rw [if_pos hjd]
        by_cases ha : a = NABU_CODE_JOY0 ∨ a = NABU_CODE_JOY1
        · rcases ha with ha | ha <;> subst ha
          · have hsa : selUpdate NABU_CODE_JOY0 = some 0 := by decide
            rw [hsa]
            simp [h0, h1, hjd, NABU_CODE_JOY0, NABU_CODE_JOY1]
          · have hsa : selUpdate NABU_CODE_JOY1 = some 1 := by decide
            rw [hsa]
            simp [h0, h1, hjd, NABU_CODE_JOY0, NABU_CODE_JOY1]
        · have hsa : selUpdate a = none := by simp [selUpdate, ha]
          have ha1 : ¬(a = 128) := by simpa [NABU_CODE_JOY0] using mt Or.inl ha
          have ha2 : ¬(a = 129) := by simpa [NABU_CODE_JOY1] using mt Or.inr ha
          rw [hsa]
          simp [h0, h1, hjd, ha1, ha2]
      · rw [if_neg hjd]
        have hjd2 : NABU_CODE_JOYDAT_P b = false := by simpa using hjd
        by_cases hk : (nabu_to_hid b).headD 0 ≠ 0 ∨ NABU_CODE_ERR_P b
        · rw [if_pos hk]
          simp [h0, h1, hjd2]
        · rw [if_neg hk]
          simp [h0, h1, hjd2]

lemma reader_kbd_aux (bs : List Nat) : ∀ inst : Option Nat,
    (nabu_keyboard_reader inst bs).kbd = bs.filter specKbdKeep := by
  induction bs with
  | nil =>
    intro inst
    simp [nabu_keyboard_reader]
  | cons b rest ih =>
    intro inst
    rw [reader_cons]
    by_cases hsel : b = NABU_CODE_JOY0 ∨ b = NABU_CODE_JOY1
    · rw [if_pos hsel]
      have hkeep : specKbdKeep b = false := by
        rcases hsel with h | h <;> subst h <;> decide
      simp [List.filter_cons, hkeep, ih]
    · rw [if_neg hsel]
      by_cases hjd : NABU_CODE_JOYDAT_P b = true
      · rw [if_pos hjd]
        have hkeep : specKbdKeep b = false := by simp [specKbdKeep, hjd]
        cases inst with
        | none => simp [List.filter_cons, hkeep, ih]
        | some i =>
          by_cases hi : i = 0 <;> simp [hi, List.filter_cons, hkeep, ih]
      · rw [if_neg hjd]
        have hjd2 : NABU_CODE_JOYDAT_P b = false := by simpa using hjd
        have hb1 : (b == NABU_CODE_JOY0) = false := by
          simpa using mt Or.inl hsel
        have hb2 : (b == NABU_CODE_JOY1) = false := by
          simpa using mt Or.inr hsel
        by_cases hk : (nabu_to_hid b).headD 0 ≠ 0 ∨ NABU_CODE_ERR_P b
        · rw [if_pos hk]
          have hkeep : specKbdKeep b = true := by
            rcases hk with hk | hk <;>
              [simp only [List.headD_eq_head?] at hk; skip] <;>
              simp [specKbdKeep, List.headD_eq_head?, hjd2, hb1, hb2, hk]
          simp [List.filter_cons, hkeep, ih]
        · rw [if_neg hk]
          have hkeep : specKbdKeep b = false := by
            push_neg at hk
            simp only [List.headD_eq_head?] at hk
            simp [specKbdKeep, List.headD_eq_head?, hjd2, hb1, hb2,
                  hk.1, hk.2]
          simp [List.filter_cons, hkeep, ih]

/-- C7: over any received byte stream, a joystick data byte
(0xA0-0xBF) lands in joystick queue i exactly when the immediately
preceding byte is the selector 0x80+i (first conjuncts, per stick); a
data byte with no pending selector is discarded (it appears in no
queue); the keyboard queue receives exactly the non-selector,
non-joystick-data bytes with a non-empty table entry or in the
status range; and after any single byte the pending-selector state is
`some (c &&& 1)` for a selector and reset to `none` otherwise — in
particular a second selector in a row restarts the state machine. -/
theorem c7_reader_framing :
    (∀ bs, (nabu_keyboard_reader none bs).joy0 = specSel 0 bs) ∧
    (∀ bs, (nabu_keyboard_reader none bs).joy1 = specSel 1 bs) ∧
    (∀ bs, (nabu_keyboard_reader none bs).kbd = bs.filter specKbdKeep) ∧
    (∀ (inst : Option Nat) (c : Nat),
      (nabu_keyboard_reader inst [c]).inst =
        if c = NABU_CODE_JOY0 ∨ c = NABU_CODE_JOY1 then some (c &&& 1)
        else none) := by
  refine ⟨?_, ?_, fun bs => reader_kbd_aux bs none, ?_⟩
  · intro bs
    rcases bs with _ | ⟨a, rest⟩
    · simp [nabu_keyboard_reader, specSel]
    · have haux := (reader_sel_aux rest a).1
      rw [reader_cons]
      by_cases hsel : a = NABU_CODE_JOY0 ∨ a = NABU_CODE_JOY1
      · rw [if_pos hsel,
            show some (a &&& 1) = selUpdate a from by simp [selUpdate, hsel]]
        exact haux
      · rw [if_neg hsel]
        have hsa : selUpdate a = none := by simp [selUpdate, hsel]
        rw [hsa] at haux
        by_cases hjd : NABU_CODE_JOYDAT_P a = true
        · rw [if_pos hjd]
          exact haux
        · rw [if_neg hjd]
          by_cases hk : (nabu_to_hid a).headD 0 ≠ 0 ∨ NABU_CODE_ERR_P a
          · rw [if_pos hk]
            simpa using haux
          · rw [if_neg hk]
            exact haux
  · intro bs
    rcases bs with _ | ⟨a, rest⟩
    · simp [nabu_keyboard_reader, specSel]
    · have haux := (reader_sel_aux rest a).2
      rw [reader_cons]
      by_cases hsel : a = NABU_CODE_JOY0 ∨ a = NABU_CODE_JOY1
      · rw [if_pos hsel,
            show some (a &&& 1) = selUpdate a from by simp [selUpdate, hsel]]
        exact haux
      · rw [if_neg hsel]
        have hsa : selUpdate a = none := by simp [selUpdate, hsel]
        rw [hsa] at haux
        by_cases hjd : NABU_CODE_JOYDAT_P a = true
        · rw [if_pos hjd]
          exact haux
        · rw [if_neg hjd]
          by_cases hk : (nabu_to_hid a).headD 0 ≠ 0 ∨ NABU_CODE_ERR_P a
          · rw [if_pos hk]
            simpa using haux
          · rw [if_neg hk]
            exact haux
  · intro inst c
    rw [reader_cons]
    split_ifs with h1 h2 h3
    · simp [nabu_keyboard_reader]
    · cases inst with
      | none => simp [nabu_keyboard_reader]
      | some i => by_cases hi : i = 0 <;> simp [hi, nabu_keyboard_reader]
    · simp [nabu_keyboard_reader]
    · simp [nabu_keyboard_reader]
/-- C1: every control byte that the table maps to a Ctrl+key combination
(0x01-0x07, 0x0b, 0x0c, 0x0e-0x1a, 0x1d) has exactly the 3-step entry
{Ctrl alone, Ctrl+key, Ctrl alone}; the four exception bytes 0x00, 0x1C,
0x1E, 0x1F have exactly the 5-step entry
{Ctrl, Ctrl|Shift, Ctrl|Shift|key, Ctrl|Shift, Ctrl} with key = 2, comma,
6, minus respectively; Ctrl is present in every step of each such
sequence; and those 27 bytes are exactly the bytes whose table entry
begins with a Ctrl-modified code. -/
theorem c1_ctrl_table_shapes :
    (ctrl3Bytes.all fun c =>
      isCtrl3 (nabu_to_hid c) && ctrlEverywhere (nabu_to_hid c)) = true ∧
    isCtrl5 HID_KEY_2 (nabu_to_hid 0x00) = true ∧
    isCtrl5 HID_KEY_COMMA (nabu_to_hid 0x1c) = true ∧
    isCtrl5 HID_KEY_6 (nabu_to_hid 0x1e) = true ∧
    isCtrl5 HID_KEY_MINUS (nabu_to_hid 0x1f) = true ∧
    ([0x00, 0x1c, 0x1e, 0x1f].all fun c =>
      ctrlEverywhere (nabu_to_hid c)) = true ∧
    ((List.range 256).filter fun c =>
      (nabu_to_hid c).headD 0 &&& M_CTRL != 0) =
      [0x00, 0x01, 0x02, 0x03, 0x04, 0x05, 0x06, 0x07, 0x0b, 0x0c,
       0x0e, 0x0f, 0x10, 0x11, 0x12, 0x13, 0x14, 0x15, 0x16, 0x17,
       0x18, 0x19, 0x1a, 0x1c, 0x1d, 0x1e, 0x1f] := by
  decide
